import Mathlib

/-!
Shallow embedding of the MADRIS earthquake decision-support backend
(`src/backend/...`) and verification of its specification claims.

Python floats are modelled as rationals (ℚ); Python dicts/JSON payloads as
an inductive `JVal`; fallible code returns `Except String`.  Field and
function names follow the source where Lean allows it.
-/

namespace Madris

/-- Python `round` uses round-half-to-even ("banker's rounding").
`pyRoundInt x` is the integer nearest to `x`, ties to the even integer. -/
def pyRoundInt (x : ℚ) : ℤ :=
  if x - (⌊x⌋ : ℚ) < 1/2 then ⌊x⌋
  else if 1/2 < x - (⌊x⌋ : ℚ) then ⌊x⌋ + 1
  else if ⌊x⌋ % 2 = 0 then ⌊x⌋ else ⌊x⌋ + 1

/-- Python `round(x, 2)`. -/
def round2 (x : ℚ) : ℚ := (pyRoundInt (x * 100) : ℚ) / 100

/-- Python `round(x, 4)`. -/
def round4 (x : ℚ) : ℚ := (pyRoundInt (x * 10000) : ℚ) / 10000

/-- Python `int(x)` on a float: truncation toward zero. -/
def ratTrunc (x : ℚ) : ℤ := if x < 0 then -⌊-x⌋ else ⌊x⌋

/-- Python/JSON-style dynamic value, used for raw case dicts and stored
payloads.  `null` is Python `None`; `obj` is a dict as an association list
(first match wins on lookup, as the serializers never emit duplicate keys). -/
inductive JVal where
  | null : JVal
  | num (q : ℚ) : JVal
  | str (s : String) : JVal
  | arr (l : List JVal) : JVal
  | obj (l : List (String × JVal)) : JVal

/-- First-match association-list lookup (Python dict access). -/
def jlookup : JVal → String → Option JVal
  | .obj l, k => go l k
  | _, _ => none
where go : List (String × JVal) → String → Option JVal
  | [], _ => none
  | (k', v) :: t, k => if k' = k then some v else go t k

/-- Python `d.get(k)` — `None` when the key is missing. -/
def jget (j : JVal) (k : String) : JVal := (jlookup j k).getD .null

/-- Python `d.get(k, default)`. -/
def jgetD (j : JVal) (k : String) (d : JVal) : JVal := (jlookup j k).getD d

/-- Python truthiness of a value: `None`, `0`, `""`, `[]` and `{}` are falsy. -/
def jtruthy : JVal → Bool
  | .null => false
  | .num q => q ≠ 0
  | .str s => s ≠ ""
  | .arr l => !l.isEmpty
  | .obj l => !l.isEmpty

/-- Confidence of an `UncertainProperty`: Python `Union[float, str]`. -/
inductive PyConfidence where
  | num (q : ℚ) : PyConfidence
  | label (s : String) : PyConfidence
deriving DecidableEq, Repr

/-- `earthquake_state.UncertainProperty`: a value that may be uncertain,
with a source and a confidence.  The Python `value` field is dynamically
typed; the dataclass annotations fix `T` per field, which this embedding
follows. -/
structure UncertainProperty (T : Type) where
  value : Option T := none
  source : String := "unknown"
  confidence : PyConfidence := .label "unknown"
deriving DecidableEq, Repr

/-- `earthquake_state.EventIdentity`.  `timestamp` is the `isoformat`
rendering of the Python `datetime` (wall-clock contents are irrelevant to
every claim). -/
structure EventIdentity where
  event_id : Option String := none
  event_type : String := "earthquake"
  magnitude : Option (UncertainProperty ℚ) := none
  intensity : Option (UncertainProperty String) := none
  phase : Option String := none
  timestamp : Option String := none
  time_since_event_hours : Option ℚ := none
deriving DecidableEq, Repr

/-- `earthquake_state.SpatialContext`. -/
structure SpatialContext where
  region_type : Option (UncertainProperty String) := none
  terrain : Option (UncertainProperty String) := none
  secondary_hazards : List (UncertainProperty String) := []
  location_description : Option String := none
deriving DecidableEq, Repr

/-- `earthquake_state.HumanExposure`.  `population_density` is annotated
`UncertainProperty[str]` in the source ("sparse", "dense", or a numeral
rendered as a string); the similarity engine compares it by equality in
both its numeric and string branches, which string equality captures. -/
structure HumanExposure where
  population_density : Option (UncertainProperty String) := none
  vulnerable_groups : List (UncertainProperty String) := []
  time_of_day_context : Option String := none
deriving DecidableEq, Repr

/-- `earthquake_state.BuiltEnvironment`; the infrastructure dict is an
association list. -/
structure BuiltEnvironment where
  dominant_building_types : List (UncertainProperty String) := []
  construction_quality : Option (UncertainProperty String) := none
  critical_infrastructure_status : List (String × UncertainProperty String) := []
deriving DecidableEq, Repr

/-- `earthquake_state.DamageIndicators`. -/
structure DamageIndicators where
  building_collapse_severity : Option (UncertainProperty String) := none
  access_disruption : Option (UncertainProperty String) := none
  utility_failures : List (UncertainProperty String) := []
  visible_hazards : List (UncertainProperty String) := []
deriving DecidableEq, Repr

/-- `earthquake_state.ActionsTaken`. -/
structure ActionsTaken where
  rescue_operations : Option (UncertainProperty String) := none
  evacuation_status : Option (UncertainProperty String) := none
  medical_deployment : Option (UncertainProperty String) := none
  logistics_coordination : Option (UncertainProperty String) := none
deriving DecidableEq, Repr

/-- `earthquake_state.Outcomes`. -/
structure Outcomes where
  casualties : Option (UncertainProperty ℤ) := none
  injuries : Option (UncertainProperty ℤ) := none
  displacement : Option (UncertainProperty ℤ) := none
  economic_loss : Option (UncertainProperty String) := none
deriving DecidableEq, Repr

/-- `earthquake_state.EarthquakeSituation`.  `created_at` holds the
`datetime.now()` wall-clock reading as its rendered string; it is record
metadata dropped by serialization round-trips. -/
structure EarthquakeSituation where
  event_identity : EventIdentity := {}
  spatial_context : SpatialContext := {}
  human_exposure : HumanExposure := {}
  built_environment : BuiltEnvironment := {}
  damage_indicators : DamageIndicators := {}
  actions_taken : ActionsTaken := {}
  outcomes : Outcomes := {}
  record_id : Option String := none
  created_at : String := ""
deriving DecidableEq, Repr

/-- `case_study_ingestion.TimePhase`. -/
inductive TimePhase where
  | T0_IMPACT
  | T1_EARLY_RESPONSE
  | T2_STABILIZATION
  | T3_OUTCOME
deriving DecidableEq, Repr

/-- The `.value` string of the Python enum member. -/
def TimePhase.value : TimePhase → String
  | .T0_IMPACT => "T0_IMPACT"
  | .T1_EARLY_RESPONSE => "T1_EARLY_RESPONSE"
  | .T2_STABILIZATION => "T2_STABILIZATION"
  | .T3_OUTCOME => "T3_OUTCOME"

/-- Ordinal position of a phase (T0 < T1 < T2 < T3). -/
def TimePhase.idx : TimePhase → ℕ
  | .T0_IMPACT => 0
  | .T1_EARLY_RESPONSE => 1
  | .T2_STABILIZATION => 2
  | .T3_OUTCOME => 3

/-- Python `TimePhase(s)` — enum construction from the value string,
raising `ValueError` on anything else. -/
def TimePhase.ofValue (s : String) : Except String TimePhase :=
  if s = "T0_IMPACT" then .ok .T0_IMPACT
  else if s = "T1_EARLY_RESPONSE" then .ok .T1_EARLY_RESPONSE
  else if s = "T2_STABILIZATION" then .ok .T2_STABILIZATION
  else if s = "T3_OUTCOME" then .ok .T3_OUTCOME
  else .error ("ValueError: " ++ s ++ " is not a valid TimePhase")

/-- `case_study_ingestion.TimeSlice`. -/
structure TimeSlice where
  phase : TimePhase
  situation : EarthquakeSituation
  relative_time_label : String := "unknown"
deriving DecidableEq, Repr

/-- `experience_unit.ExperienceUnit` (frozen dataclass). -/
structure ExperienceUnit where
  situation : EarthquakeSituation
  phase : TimePhase
  source_case_id : String
  subsequent_outcomes : Option Outcomes := none
deriving DecidableEq, Repr

/-- Serialize an optional string field (`x if x else None` pattern). -/
def optStrJ : Option String → JVal
  | none => .null
  | some s => .str s

/-- Serialize an optional number field. -/
def optNumJ : Option ℚ → JVal
  | none => .null
  | some q => .num q

/-- Serialize the confidence union. -/
def PyConfidence.toJ : PyConfidence → JVal
  | .num q => .num q
  | .label s => .str s

/-- `UncertainProperty.to_dict`: `{"value": ..., "source": ..., "confidence": ...}`. -/
def UncertainProperty.to_dict {T : Type} (ser : T → JVal) (p : UncertainProperty T) : JVal :=
  .obj [("value", match p.value with | none => .null | some v => ser v),
        ("source", .str p.source),
        ("confidence", p.confidence.toJ)]

/-- The `x.to_dict() if x else None` pattern for optional properties. -/
def optPropJ {T : Type} (ser : T → JVal) : Option (UncertainProperty T) → JVal
  | none => .null
  | some p => p.to_dict ser

/-- Serialize a list of properties. -/
def listPropJ {T : Type} (ser : T → JVal) (l : List (UncertainProperty T)) : JVal :=
  .arr (l.map (·.to_dict ser))

/-- `EventIdentity.to_dict`. -/
def EventIdentity.to_dict (ei : EventIdentity) : JVal :=
  .obj [("event_id", optStrJ ei.event_id),
        ("event_type", .str ei.event_type),
        ("magnitude", optPropJ .num ei.magnitude),
        ("intensity", optPropJ .str ei.intensity),
        ("phase", optStrJ ei.phase),
        ("timestamp", optStrJ ei.timestamp),
        ("time_since_event_hours", optNumJ ei.time_since_event_hours)]

/-- `SpatialContext.to_dict`. -/
def SpatialContext.to_dict (sp : SpatialContext) : JVal :=
  .obj [("region_type", optPropJ .str sp.region_type),
        ("terrain", optPropJ .str sp.terrain),
        ("secondary_hazards", listPropJ .str sp.secondary_hazards),
        ("location_description", optStrJ sp.location_description)]

/-- `HumanExposure.to_dict`. -/
def HumanExposure.to_dict (he : HumanExposure) : JVal :=
  .obj [("population_density", optPropJ .str he.population_density),
        ("vulnerable_groups", listPropJ .str he.vulnerable_groups),
        ("time_of_day_context", optStrJ he.time_of_day_context)]

/-- `BuiltEnvironment.to_dict`. -/
def BuiltEnvironment.to_dict (be : BuiltEnvironment) : JVal :=
  .obj [("dominant_building_types", listPropJ .str be.dominant_building_types),
        ("construction_quality", optPropJ .str be.construction_quality),
        ("critical_infrastructure_status",
          .obj (be.critical_infrastructure_status.map (fun p => (p.1, p.2.to_dict .str))))]

/-- `DamageIndicators.to_dict`. -/
def DamageIndicators.to_dict (di : DamageIndicators) : JVal :=
  .obj [("building_collapse_severity", optPropJ .str di.building_collapse_severity),
        ("access_disruption", optPropJ .str di.access_disruption),
        ("utility_failures", listPropJ .str di.utility_failures),
        ("visible_hazards", listPropJ .str di.visible_hazards)]

/-- `ActionsTaken.to_dict`. -/
def ActionsTaken.to_dict (at_ : ActionsTaken) : JVal :=
  .obj [("rescue_operations", optPropJ .str at_.rescue_operations),
        ("evacuation_status", optPropJ .str at_.evacuation_status),
        ("medical_deployment", optPropJ .str at_.medical_deployment),
        ("logistics_coordination", optPropJ .str at_.logistics_coordination)]

/-- `Outcomes.to_dict`.  Integer counts serialize as JSON numbers. -/
def Outcomes.to_dict (o : Outcomes) : JVal :=
  .obj [("casualties", optPropJ (fun n : ℤ => .num n) o.casualties),
        ("injuries", optPropJ (fun n : ℤ => .num n) o.injuries),
        ("displacement", optPropJ (fun n : ℤ => .num n) o.displacement),
        ("economic_loss", optPropJ .str o.economic_loss)]

/-- `EarthquakeSituation.to_dict`. -/
def EarthquakeSituation.to_dict (s : EarthquakeSituation) : JVal :=
  .obj [("record_id", optStrJ s.record_id),
        ("created_at", .str s.created_at),
        ("event_identity", s.event_identity.to_dict),
        ("spatial_context", s.spatial_context.to_dict),
        ("human_exposure", s.human_exposure.to_dict),
        ("built_environment", s.built_environment.to_dict),
        ("damage_indicators", s.damage_indicators.to_dict),
        ("actions_taken", s.actions_taken.to_dict),
        ("outcomes", s.outcomes.to_dict)]

/-- `EarthquakeSituation.from_dict`: the source method body is `pass`, so
the call returns Python `None` whatever the input. -/
def EarthquakeSituation.from_dict (_ : JVal) : Option EarthquakeSituation := none

/-- `ExperienceUnit.to_dict`. -/
def ExperienceUnit.to_dict (u : ExperienceUnit) : JVal :=
  .obj [("source_case_id", .str u.source_case_id),
        ("phase", .str u.phase.value),
        ("situation", u.situation.to_dict),
        ("subsequent_outcomes",
          match u.subsequent_outcomes with | none => .null | some o => o.to_dict)]

/-- The `"identity"` sub-dict of a raw case study, with the keys
`case_study_ingestion` reads.  A `none` field is a key that is absent or
maps to `None` (the two are indistinguishable to `_extract_uncertain`). -/
structure RawIdentity where
  event_id : Option String := none
  magnitude : Option ℚ := none
  intensity : Option String := none
deriving DecidableEq, Repr

/-- The `"spatial"` sub-dict of a raw case study. -/
structure RawSpatial where
  region_type : Option String := none
  terrain : Option String := none
  secondary_hazards : Option (List String) := none
  location_description : Option String := none
deriving DecidableEq, Repr

/-- The `"human"` sub-dict of a raw case study. -/
structure RawHuman where
  population_density : Option String := none
  vulnerable_groups : Option (List String) := none
  time_of_day : Option String := none
deriving DecidableEq, Repr

/-- The `"built"` sub-dict of a raw case study. -/
structure RawBuilt where
  building_types : Option (List String) := none
  construction_quality : Option String := none
deriving DecidableEq, Repr

/-- The `"damage"` sub-dict of a raw case study. -/
structure RawDamage where
  building_collapse : Option String := none
  access_disruption : Option String := none
  utility_failures : Option (List String) := none
  visible_hazards : Option (List String) := none
deriving DecidableEq, Repr

/-- The `"actions"` sub-dict of a raw case study. -/
structure RawActions where
  rescue : Option String := none
  evacuation : Option String := none
  medical : Option String := none
  logistics : Option String := none
deriving DecidableEq, Repr

/-- The `"outcomes"` sub-dict of a raw case study. -/
structure RawOutcomes where
  casualties : Option ℤ := none
  injuries : Option ℤ := none
  displacement : Option ℤ := none
  economic_loss : Option String := none
deriving DecidableEq, Repr

/-- A raw case study dict as read by `CaseStudyIngestor`: only the keys
the ingestor accesses, each leaf typed by the situation field it feeds.
The `outcomes` and `actions` sub-dicts are carried so that we can state
what the ingestor ignores, regardless of what the raw dict contains. -/
structure RawCase where
  identity : Option RawIdentity := none
  spatial : Option RawSpatial := none
  human : Option RawHuman := none
  built : Option RawBuilt := none
  damage : Option RawDamage := none
  actions : Option RawActions := none
  outcomes : Option RawOutcomes := none
deriving DecidableEq, Repr

namespace CaseStudyIngestor

/-- `_extract_uncertain`: wrap a present, non-null value with
`source="case_report"`, `confidence="medium"`. -/
def extract_uncertain {α : Type} (v : Option α) : Option (UncertainProperty α) :=
  v.map (fun x => { value := some x, source := "case_report", confidence := .label "medium" })

/-- `_extract_list_uncertain`: wrap each element of a present list;
absent list gives `[]`. -/
def extract_list_uncertain {α : Type} (v : Option (List α)) : List (UncertainProperty α) :=
  (v.getD []).map (fun x => { value := some x, source := "case_report", confidence := .label "medium" })

/-- `_has_data_for_phase`: T0 needs an `identity` or `spatial` key; the
source returns `True` for every later phase. -/
def has_data_for_phase (data : RawCase) (phase : TimePhase) : Bool :=
  match phase with
  | .T0_IMPACT => data.identity.isSome || data.spatial.isSome
  | _ => true

/-- `_create_base_situation`: the static context present in all phases. -/
def create_base_situation (data : RawCase) : EarthquakeSituation :=
  let identity_data := data.identity.getD {}
  let spatial := data.spatial.getD {}
  let human := data.human.getD {}
  let built := data.built.getD {}
  { event_identity :=
      { event_id := identity_data.event_id
        event_type := "earthquake"
        magnitude := extract_uncertain identity_data.magnitude
        intensity := extract_uncertain identity_data.intensity }
    spatial_context :=
      { region_type := extract_uncertain spatial.region_type
        terrain := extract_uncertain spatial.terrain
        secondary_hazards := extract_list_uncertain spatial.secondary_hazards
        location_description := spatial.location_description }
    human_exposure :=
      { population_density := extract_uncertain human.population_density
        vulnerable_groups := extract_list_uncertain human.vulnerable_groups
        time_of_day_context := human.time_of_day }
    built_environment :=
      { dominant_building_types := extract_list_uncertain built.building_types
        construction_quality := extract_uncertain built.construction_quality
        critical_infrastructure_status := [] } }

/-- Damage indicators are populated identically in every phase creator. -/
def damage_of (data : RawCase) : DamageIndicators :=
  let damage := data.damage.getD {}
  { building_collapse_severity := extract_uncertain damage.building_collapse
    access_disruption := extract_uncertain damage.access_disruption
    utility_failures := extract_list_uncertain damage.utility_failures
    visible_hazards := extract_list_uncertain damage.visible_hazards }

/-- `_create_slice_t0`: identity/contexts/damage only — no actions, no outcomes. -/
def create_slice_t0 (data : RawCase) : TimeSlice :=
  let base := create_base_situation data
  { phase := .T0_IMPACT
    situation :=
      { base with
        event_identity :=
          { base.event_identity with
            phase := some "immediate_impact"
            time_since_event_hours := some 0 }
        damage_indicators := damage_of data }
    relative_time_label := "0-6 hours" }

/-- `_create_slice_t1`: T0 content plus early actions (rescue, evacuation). -/
def create_slice_t1 (data : RawCase) : TimeSlice :=
  let base := create_base_situation data
  let actions := data.actions.getD {}
  { phase := .T1_EARLY_RESPONSE
    situation :=
      { base with
        event_identity :=
          { base.event_identity with
            phase := some "early_response"
            time_since_event_hours := some 12 }
        damage_indicators := damage_of data
        actions_taken :=
          { rescue_operations := extract_uncertain actions.rescue
            evacuation_status := extract_uncertain actions.evacuation } }
    relative_time_label := "12-24 hours" }

/-- `_create_slice_t2`: T1 content plus medical and logistics. -/
def create_slice_t2 (data : RawCase) : TimeSlice :=
  let base := create_base_situation data
  let actions := data.actions.getD {}
  { phase := .T2_STABILIZATION
    situation :=
      { base with
        event_identity :=
          { base.event_identity with
            phase := some "stabilization"
            time_since_event_hours := some 24 }
        damage_indicators := damage_of data
        actions_taken :=
          { rescue_operations := extract_uncertain actions.rescue
            evacuation_status := extract_uncertain actions.evacuation
            medical_deployment := extract_uncertain actions.medical
            logistics_coordination := extract_uncertain actions.logistics } }
    relative_time_label := "24-48 hours" }

/-- `_create_slice_t3`: everything, outcomes included. -/
def create_slice_t3 (data : RawCase) : TimeSlice :=
  let base := create_base_situation data
  let actions := data.actions.getD {}
  let outcomes := data.outcomes.getD {}
  { phase := .T3_OUTCOME
    situation :=
      { base with
        event_identity :=
          { base.event_identity with
            phase := some "outcome"
            time_since_event_hours := some 72 }
        damage_indicators := damage_of data
        actions_taken :=
          { rescue_operations := extract_uncertain actions.rescue
            evacuation_status := extract_uncertain actions.evacuation
            medical_deployment := extract_uncertain actions.medical
            logistics_coordination := extract_uncertain actions.logistics }
        outcomes :=
          { casualties := extract_uncertain outcomes.casualties
            injuries := extract_uncertain outcomes.injuries
            displacement := extract_uncertain outcomes.displacement
            economic_loss := extract_uncertain outcomes.economic_loss } }
    relative_time_label := "post-event" }

/-- `ingest_case_study`: phases are attempted strictly in T0,T1,T2,T3 order. -/
def ingest_case_study (data : RawCase) : List TimeSlice :=
  (if has_data_for_phase data .T0_IMPACT then [create_slice_t0 data] else [])
  ++ (if has_data_for_phase data .T1_EARLY_RESPONSE then [create_slice_t1 data] else [])
  ++ (if has_data_for_phase data .T2_STABILIZATION then [create_slice_t2 data] else [])
  ++ (if has_data_for_phase data .T3_OUTCOME then [create_slice_t3 data] else [])

end CaseStudyIngestor

/-- List-of-chars prefix test (structural, so the kernel can evaluate it). -/
def prefixOfL : List Char → List Char → Bool
  | [], _ => true
  | _ :: _, [] => false
  | a :: as, b :: bs => a = b && prefixOfL as bs

/-- Occurrence of `sub` anywhere in the char list. -/
def subOccursL (sub : List Char) : List Char → Bool
  | [] => sub.isEmpty
  | c :: t => prefixOfL sub (c :: t) || subOccursL sub t

/-- Python `sub in s` substring test. -/
def strContains (s sub : String) : Bool := subOccursL sub.data s.data

/-- Python `s.upper()` (all strings involved are ASCII). -/
def pyUpper (s : String) : String := ⟨s.data.map Char.toUpper⟩

/-- Python `s.strip()`: drop whitespace from both ends. -/
def pyTrim (s : String) : String :=
  ⟨((s.data.dropWhile Char.isWhitespace).reverse.dropWhile Char.isWhitespace).reverse⟩

/-- Python `s.split(sep)` for non-empty `sep`; fuel makes the recursion
structural so the kernel can evaluate it (`fuel = s.length` always
suffices because every step consumes at least one character). -/
def splitFuel (sep : List Char) : ℕ → List Char → List (List Char)
  | 0, s => [s]
  | _ + 1, [] => [[]]
  | fuel + 1, c :: t =>
      if !sep.isEmpty && prefixOfL sep (c :: t) then
        [] :: splitFuel sep fuel (List.drop (sep.length - 1) t)
      else
        match splitFuel sep fuel t with
        | [] => [[c]]
        | h :: r => (c :: h) :: r

/-- Python `s.split(sep)`. -/
def pySplit (s sep : String) : List String :=
  (splitFuel sep.data s.data.length s.data).map (fun l => ⟨l⟩)

/-- Similarity weight dict; the engine only ever reads the four dimension
keys, so it is embedded as a record. -/
structure Weights where
  scale : ℚ
  spatial : ℚ
  human : ℚ
  built : ℚ
deriving DecidableEq, Repr

/-- The default weights of `SimilarityEngine.__init__`. -/
def defaultWeights : Weights := { scale := 0.3, spatial := 0.25, human := 0.2, built := 0.25 }

/-- Sum of the weight dict values. -/
def Weights.total (w : Weights) : ℚ := w.scale + w.spatial + w.human + w.built

/-- `__init__` normalization: divide by the total when it is positive. -/
def Weights.normalize (w : Weights) : Weights :=
  if w.total > 0 then
    { scale := w.scale / w.total, spatial := w.spatial / w.total,
      human := w.human / w.total, built := w.built / w.total }
  else w

/-- `similarity_engine.SimilarityEngine` — its only state is the weight dict. -/
structure SimilarityEngine where
  weights : Weights
deriving DecidableEq, Repr

/-- `SimilarityEngine.__init__`: `weights or default`, then normalize. -/
def SimilarityEngine.init (weights : Option Weights) : SimilarityEngine :=
  { weights := (weights.getD defaultWeights).normalize }

/-- The per-dimension score dict (keys scale/spatial/human/built). -/
structure DimScores where
  scale : ℚ
  spatial : ℚ
  human : ℚ
  built : ℚ
deriving DecidableEq, Repr

/-- `similarity_engine.SimilarityResult`. -/
structure SimilarityResult where
  experience_unit : ExperienceUnit
  score : ℚ
  dimension_scores : DimScores
  penalties : List String
  confidence_modifier : ℚ := 1
deriving DecidableEq, Repr

namespace SimilarityEngine

/-- `_get_val`: `prop.value if prop else None`. -/
def get_val {α : Type} (prop : Option (UncertainProperty α)) : Option α :=
  prop.bind (·.value)

/-- `_get_list_vals`: the set of non-null values. -/
def get_list_vals (props : List (UncertainProperty String)) : Finset String :=
  (props.filterMap (·.value)).toFinset

/-- Python truthiness of an optional string value. -/
def truthyStr : Option String → Bool
  | some s => s ≠ ""
  | none => false

/-- `_compute_scale_similarity`: magnitude delta over a 3.0 range. -/
def compute_scale_similarity (q c : EarthquakeSituation) : ℚ :=
  match get_val q.event_identity.magnitude, get_val c.event_identity.magnitude with
  | some q_mag, some c_mag => max 0 (1 - |q_mag - c_mag| / 3)
  | none, none => 0.5
  | _, _ => 0.4

/-- `_compute_spatial_similarity`: exact categorical match on region type;
the `if q_reg and c_reg` guard is Python truthiness, so an empty string
falls back to 0.5. -/
def compute_spatial_similarity (q c : EarthquakeSituation) : ℚ :=
  if truthyStr (get_val q.spatial_context.region_type)
      && truthyStr (get_val c.spatial_context.region_type) then
    (if get_val q.spatial_context.region_type = get_val c.spatial_context.region_type
     then 1 else 0)
  else 0.5

/-- `_compute_human_similarity`: equality on population density (the
numeric and string branches of the source both reduce to equality). -/
def compute_human_similarity (q c : EarthquakeSituation) : ℚ :=
  if truthyStr (get_val q.human_exposure.population_density)
      && truthyStr (get_val c.human_exposure.population_density) then
    (if get_val q.human_exposure.population_density
        = get_val c.human_exposure.population_density then 1 else 0)
  else 0.5

/-- `_compute_built_similarity`: Jaccard index on building-type sets. -/
def compute_built_similarity (q c : EarthquakeSituation) : ℚ :=
  if get_list_vals q.built_environment.dominant_building_types = ∅
      ∧ get_list_vals c.built_environment.dominant_building_types = ∅ then 0.5
  else if get_list_vals q.built_environment.dominant_building_types = ∅
      ∨ get_list_vals c.built_environment.dominant_building_types = ∅ then 0.3
  else if (get_list_vals q.built_environment.dominant_building_types
      ∪ get_list_vals c.built_environment.dominant_building_types).card > 0 then
    ((get_list_vals q.built_environment.dominant_building_types
      ∩ get_list_vals c.built_environment.dominant_building_types).card : ℚ)
      / ((get_list_vals q.built_environment.dominant_building_types
      ∪ get_list_vals c.built_environment.dominant_building_types).card : ℚ)
  else 0

/-- `_is_phase_compatible`: shared-substring heuristic between the
free-text query phase and the candidate's enum value. -/
def is_phase_compatible (query_phase : String) (cand_phase : TimePhase) : Bool :=
  let qp := pyUpper query_phase
  let cp := pyUpper cand_phase.value
  (strContains qp "IMPACT" && strContains cp "IMPACT") ||
  (strContains qp "RESPONSE" && strContains cp "RESPONSE") ||
  (strContains qp "STABIL" && strContains cp "STABIL") ||
  (strContains qp "OUTCOME" && strContains cp "OUTCOME") ||
  (strContains qp "RECOVER" && strContains cp "OUTCOME")

/-- The penalty string recorded on a phase mismatch. -/
def phaseMismatchMsg (qp : String) (p : TimePhase) : String :=
  "Phase mismatch: Query \x27" ++ qp ++ "\x27 vs Candidate \x27" ++ p.value ++ "\x27"

/-- `compute_similarity`: the four dimension scores, weighted aggregation,
then the 0.8 phase penalty guarded by the truthiness of the query phase. -/
def compute_similarity (e : SimilarityEngine) (query : EarthquakeSituation)
    (candidate : ExperienceUnit) : SimilarityResult :=
  let cand_sit := candidate.situation
  let d_scale := compute_scale_similarity query cand_sit
  let d_spatial := compute_spatial_similarity query cand_sit
  let d_human := compute_human_similarity query cand_sit
  let d_built := compute_built_similarity query cand_sit
  let raw_score := d_scale * e.weights.scale + d_spatial * e.weights.spatial
    + d_human * e.weights.human + d_built * e.weights.built
  let penalized :=
    match query.event_identity.phase with
    | some qp =>
        if qp ≠ "" then
          if is_phase_compatible qp candidate.phase then (raw_score, ([] : List String))
          else (raw_score * 0.8, [phaseMismatchMsg qp candidate.phase])
        else (raw_score, [])
    | none => (raw_score, [])
  { experience_unit := candidate
    score := round4 penalized.1
    dimension_scores :=
      { scale := round4 d_scale, spatial := round4 d_spatial,
        human := round4 d_human, built := round4 d_built }
    penalties := penalized.2 }

end SimilarityEngine

/-- `intervention_reasoner.InterventionRecommendation`. -/
structure InterventionRecommendation where
  action_name : String
  suggested_time_window : String
  comparative_effect : String
  confidence_score : ℚ
  supporting_experience_count : ℕ
  notes : String := ""
deriving DecidableEq, Repr

namespace InterventionReasoner

/-- `_has_action`: non-null property whose value is outside
`{"none","pending","unknown"}`. -/
def has_action (prop : Option (UncertainProperty String)) : Bool :=
  match prop with
  | none => false
  | some p =>
      match p.value with
      | none => false
      | some v => v ≠ "none" && v ≠ "pending" && v ≠ "unknown"

/-- The `if/elif` presence chain of `_evaluate_action`; any other action
key leaves `val_present` false. -/
def action_taken (action_key : String) (acts : ActionsTaken) : Bool :=
  if action_key = "rescue_operations" then has_action acts.rescue_operations
  else if action_key = "evacuation" then has_action acts.evacuation_status
  else if action_key = "medical_deployment" then has_action acts.medical_deployment
  else false

/-- Cohort members that took the action. -/
def group_with (action_key : String) (cohort : List SimilarityResult) : List SimilarityResult :=
  cohort.filter (fun r => action_taken action_key r.experience_unit.situation.actions_taken)

/-- Cohort members that did not. -/
def group_without (action_key : String) (cohort : List SimilarityResult) : List SimilarityResult :=
  cohort.filter (fun r => !(action_taken action_key r.experience_unit.situation.actions_taken))

/-- `_get_avg_casualties`: mean of the casualty values carried by
`subsequent_outcomes`, `None` when no member carries one. -/
def get_avg_casualties (group : List SimilarityResult) : Option ℚ :=
  let vals := group.filterMap
    (fun r => (r.experience_unit.subsequent_outcomes.bind (·.casualties)).bind (·.value))
  if vals.isEmpty then none
  else some (((vals.map (fun n : ℤ => (n : ℚ))).sum) / (vals.length : ℚ))

/-- The comparative-effect f-string; Python `int()` truncates the
percentage and the two means. -/
def mkEffect (p aw awo : ℤ) : String :=
  s!"Associated with {p}% lower casualties in similar cases ({aw} vs {awo})"

/-- `_evaluate_action`: compare mean casualties of the treated and
untreated partitions; recommend when the treated mean is lower. -/
def evaluate_action (action_key : String) (cohort : List SimilarityResult) :
    Option InterventionRecommendation :=
  let gw := group_with action_key cohort
  let gwo := group_without action_key cohort
  if gw.isEmpty || gwo.isEmpty then none
  else
    match get_avg_casualties gw, get_avg_casualties gwo with
    | some avg_cas_with, some avg_cas_without =>
        if avg_cas_with < avg_cas_without then
          let diff := avg_cas_without - avg_cas_with
          let pct : ℚ := if avg_cas_without > 0 then diff / avg_cas_without * 100 else 0
          let conf : ℚ := min 0.9 (((gw.length : ℚ) + (gwo.length : ℚ)) / 10)
          some { action_name := action_key
                 suggested_time_window := "0-12h"
                 comparative_effect := mkEffect (ratTrunc pct) (ratTrunc avg_cas_with) (ratTrunc avg_cas_without)
                 confidence_score := round2 conf
                 supporting_experience_count := gw.length
                 notes := "Observational correlation only." }
        else none
    | _, _ => none

/-- Python `set.add` modelled as insertion-ordered duplicate-free append
(Python set iteration order is unspecified; every claim is
order-insensitive, and the final recommendation list is re-sorted). -/
def sadd (s : List String) (x : String) : List String := if x ∈ s then s else s ++ [x]

/-- The loop body of the `potential_actions` collection in
`recommend_interventions`: only rescue, evacuation and medical are
scanned (the source stops at `# ... others`); `logistics_coordination`
is never collected. -/
def collect_rescue (acc : List String) (res : SimilarityResult) : List String :=
  if has_action res.experience_unit.situation.actions_taken.rescue_operations then
    sadd acc "rescue_operations"
  else acc

/-- Second step of the collection loop. -/
def collect_evac (acc : List String) (res : SimilarityResult) : List String :=
  if has_action res.experience_unit.situation.actions_taken.evacuation_status then
    sadd (collect_rescue acc res) "evacuation"
  else collect_rescue acc res

/-- Third step of the collection loop. -/
def collect_actions (acc : List String) (res : SimilarityResult) : List String :=
  if has_action res.experience_unit.situation.actions_taken.medical_deployment then
    sadd (collect_evac acc res) "medical_deployment"
  else collect_evac acc res

/-- The `potential_actions` set of `recommend_interventions`. -/
def potential_actions (cohort : List SimilarityResult) : List String :=
  cohort.foldl collect_actions []

/-- `recommend_interventions`: evaluate each collected action, keep the
emitted recommendations, sort by confidence descending (stable). -/
def recommend_interventions (_query_phase : TimePhase) (cohort : List SimilarityResult) :
    List InterventionRecommendation :=
  let recommendations := (potential_actions cohort).filterMap (fun a => evaluate_action a cohort)
  recommendations.mergeSort (fun a b => decide (b.confidence_score ≤ a.confidence_score))

end InterventionReasoner

/-- `timeline_projection.ProjectionResult`. -/
structure ProjectionResult where
  horizon_label : String
  casualty_trend : String := "unknown"
  casualty_range : String := "unknown"
  injury_range : String := "unknown"
  collapse_progression : String := "unknown"
  access_disruption : String := "unknown"
  utility_degradation : String := "unknown"
  secondary_risks : List String := []
  confidence_score : ℚ := 0
  supporting_experience_count : ℕ := 0
deriving DecidableEq, Repr

/-- `confidence_propagation.ConfidenceAssessment`. -/
structure ConfidenceAssessment where
  score : ℚ
  label : String
  explanation : String
  drivers : List String
deriving DecidableEq, Repr

namespace ConfidenceIntegrator

/-- `_get_label`: High ≥ 0.8, Medium ≥ 0.5, else Low. -/
def get_label (score : ℚ) : String :=
  if score ≥ 0.8 then "High" else if score ≥ 0.5 then "Medium" else "Low"

/-- Python `f"{x:.2f}"` on the rational model. -/
def fmt2 (q : ℚ) : String :=
  let n := pyRoundInt (q * 100)
  let a := n.natAbs
  let fracPart := a % 100
  let fracStr := if fracPart < 10 then "0" ++ toString fracPart else toString fracPart
  (if n < 0 then "-" else "") ++ toString (a / 100) ++ "." ++ fracStr

/-- `_assess_projection`: sparse-data cap, weak-similarity driver,
single-data-point multiplier, in source order; the score is rounded to
two decimals. -/
def assess_projection (proj : ProjectionResult) : ConfidenceAssessment :=
  let raw0 := proj.confidence_score
  let step1 :=
    if proj.supporting_experience_count < 3 then
      (min raw0 0.6, ["Sparse data (<3 cases)"])
    else (raw0, ([] : List String))
  let drivers2 :=
    if step1.1 < 0.4 then step1.2 ++ ["Weak similarity matches"] else step1.2
  let step3 :=
    if proj.casualty_range ≠ "unknown" ∧ strContains proj.casualty_range "-" then
      match pySplit proj.casualty_range "-" with
      | [p0, p1] =>
          if pyTrim p0 = pyTrim p1 ∧ proj.supporting_experience_count < 2 then
            (step1.1 * 0.8, drivers2 ++ ["Single data point source"])
          else (step1.1, drivers2)
      | _ => (step1.1, drivers2)
    else (step1.1, drivers2)
  let label := get_label step3.1
  let explanation := "Confidence is " ++ label ++ " (" ++ fmt2 step3.1 ++ "). Driven by: "
    ++ (if step3.2.isEmpty then "adequate evidence" else String.intercalate ", " step3.2) ++ "."
  { score := round2 step3.1, label := label, explanation := explanation, drivers := step3.2 }

/-- `max(a.score for a in base_assessments.values())` over a non-empty
dict; 0.0 is the initialization used when the dict is empty. -/
def max_score : List (String × ConfidenceAssessment) → ℚ
  | [] => 0
  | p :: t => t.foldl (fun m q => max m q.2.score) p.2.score

/-- `_assess_intervention`: ceiling from the best baseline assessment
(0.0 with a driver when there is none), cap, then the low-support cap. -/
def assess_intervention (rec : InterventionRecommendation)
    (base_assessments : List (String × ConfidenceAssessment)) : ConfidenceAssessment :=
  let raw0 := rec.confidence_score
  let start :=
    if base_assessments.isEmpty then ((0 : ℚ), ["No baseline projection"])
    else (max_score base_assessments, ([] : List String))
  let step1 :=
    if raw0 > start.1 then (start.1, start.2 ++ ["Capped by baseline uncertainty"])
    else (raw0, start.2)
  let step2 :=
    if rec.supporting_experience_count < 2 then
      (min step1.1 0.4, step1.2 ++ ["Very low support for action"])
    else step1
  let label := get_label step2.1
  let explanation := "Confidence is " ++ label ++ " (" ++ fmt2 step2.1 ++ "). "
    ++ String.intercalate "; " step2.2 ++ "."
  { score := round2 step2.1, label := label, explanation := explanation, drivers := step2.2 }

/-- `calibrate_projections`. -/
def calibrate_projections (projections : List (String × ProjectionResult)) :
    List (String × ConfidenceAssessment) :=
  projections.map (fun p => (p.1, assess_projection p.2))

/-- `calibrate_interventions`. -/
def calibrate_interventions (recommendations : List InterventionRecommendation)
    (base_Assessments : List (String × ConfidenceAssessment)) :
    List (InterventionRecommendation × ConfidenceAssessment) :=
  recommendations.map (fun r => (r, assess_intervention r base_Assessments))

end ConfidenceIntegrator

/-- A stored point of the in-repo fallback `QdrantClient`. -/
structure Point where
  id : String
  vector : List ℚ
  payload : JVal

/-- A mock search hit (`ScoredPoint`): payload plus a fixed score. -/
structure Hit where
  payload : JVal
  score : ℚ

/-- The state of the fallback client: one collection as a list of points
(`upsert` extends it — append, no dedup by id). -/
structure MockStore where
  points : List Point := []

namespace QdrantMemory

/-- `uuid.uuid5(NAMESPACE_DNS, name)`: a deterministic function of the
name; the SHA-1 digest itself is not modelled, only the determinism the
claims rely on. -/
def uuid5 (name : String) : String := "uuid5:" ++ name

/-- The point id computed by `store_experience`. -/
def point_id (u : ExperienceUnit) : String :=
  uuid5 (u.source_case_id ++ "_" ++ u.phase.value)

/-- `store_experience` followed by the fallback client's `upsert`, which
appends the point to the collection list. -/
def store_experience (store : MockStore) (u : ExperienceUnit) (vector : List ℚ) : MockStore :=
  { points := store.points ++ [{ id := point_id u, vector := vector, payload := u.to_dict }] }

/-- The fallback client's `search`: the last `limit` stored items, newest
first, each with score 1.0; the query vector is ignored by the mock. -/
def search (store : MockStore) (_query_vector : List ℚ) (limit : ℕ) : List Hit :=
  (store.points.reverse.take limit).map (fun p => { payload := p.payload, score := 1 })

/-- Python dict bracket access: `KeyError` when the key is missing. -/
def jindex (j : JVal) (k : String) : Except String JVal :=
  match jlookup j k with
  | some v => .ok v
  | none => .error ("KeyError: " ++ k)

/-- `float(value)`.  Parsing of numeric strings is not modelled (no
serialized payload carries one). -/
def asFloat : JVal → Except String ℚ
  | .num q => .ok q
  | _ => .error "TypeError: float"

/-- `int(value)`: truncation toward zero on numbers. -/
def asInt : JVal → Except String ℤ
  | .num q => .ok (ratTrunc q)
  | _ => .error "TypeError: int"

/-- Read a payload value into a `str`-annotated field (identity in the
source; the dataclass annotation fixes the type). -/
def asStr : JVal → Except String String
  | .str s => .ok s
  | _ => .error "TypeError: str"

/-- Read a payload value into an `Optional[str]` field. -/
def asOptStr : JVal → Except String (Option String)
  | .null => .ok none
  | .str s => .ok (some s)
  | _ => .error "TypeError: Optional str"

/-- Read a payload value into an `Optional[float]` field. -/
def asOptNum : JVal → Except String (Option ℚ)
  | .null => .ok none
  | .num q => .ok (some q)
  | _ => .error "TypeError: Optional float"

/-- Read a payload value into the confidence union. -/
def asConfidence : JVal → Except String PyConfidence
  | .num q => .ok (.num q)
  | .str s => .ok (.label s)
  | _ => .error "TypeError: confidence"

/-- The truthy-object branch of `_uprop`. -/
def upropCore {α : Type} (conv : JVal → Except String α) (data : JVal) :
    Except String (UncertainProperty α) := do
  let value ← (match jget data "value" with
    | .null => pure (none : Option α)
    | v => do pure (some (← conv v)))
  let source ← asStr (jgetD data "source" (.str "unknown"))
  let confidence ← asConfidence (jgetD data "confidence" (.str "unknown"))
  pure { value := value, source := source, confidence := confidence }

/-- `_uprop`: `None` for a falsy payload entry, otherwise read the
`{value, source, confidence}` object. -/
def uprop {α : Type} (conv : JVal → Except String α) (data : JVal) :
    Except String (Option (UncertainProperty α)) :=
  if jtruthy data then (upropCore conv data).map some else .ok none

/-- `_uprop_list`: keep the truthy items of a stored list; a falsy value
(`None`, `[]`) gives `[]`. -/
def uprop_list {α : Type} (conv : JVal → Except String α) (data : JVal) :
    Except String (List (UncertainProperty α)) :=
  match data with
  | .arr l => (l.filter jtruthy).mapM (upropCore conv)
  | other => if jtruthy other then .error "TypeError: iteration" else .ok []

/-- The `critical_infrastructure_status` dict comprehension
`{k: self._uprop(v) for k, v in ...items()}` of `_reconstruct_situation`
(typed: the dataclass annotation admits only non-null properties, and
serialized payloads always carry truthy property objects). -/
def reconstruct_cis : JVal → Except String (List (String × UncertainProperty String))
  | .obj l => l.mapM (fun p => do
      match ← uprop asStr p.2 with
      | some u => pure (p.1, u)
      | none => Except.error "TypeError: null infrastructure entry")
  | _ => Except.error "AttributeError: items"

/-- `_reconstruct_outcomes`. -/
def reconstruct_outcomes (data : JVal) : Except String Outcomes := do
  let casualties ← uprop asInt (jget data "casualties")
  let injuries ← uprop asInt (jget data "injuries")
  let displacement ← uprop asInt (jget data "displacement")
  let economic_loss ← uprop asStr (jget data "economic_loss")
  pure { casualties := casualties, injuries := injuries,
         displacement := displacement, economic_loss := economic_loss }

/-- `_reconstruct_situation`: field-by-field manual reconstruction; the
source does not restore `timestamp` ("omitted for brevity"), `record_id`
or `created_at` (a fresh `EarthquakeSituation()` provides defaults). -/
def reconstruct_situation (data : JVal) : Except String EarthquakeSituation := do
  let eid := jgetD data "event_identity" (.obj [])
  let event_id ← asOptStr (jget eid "event_id")
  let event_type ← asStr (jgetD eid "event_type" (.str "earthquake"))
  let magnitude ← uprop asFloat (jget eid "magnitude")
  let intensity ← uprop asStr (jget eid "intensity")
  let phase ← asOptStr (jget eid "phase")
  let time_since_event_hours ← asOptNum (jget eid "time_since_event_hours")
  let sp := jgetD data "spatial_context" (.obj [])
  let region_type ← uprop asStr (jget sp "region_type")
  let terrain ← uprop asStr (jget sp "terrain")
  let secondary_hazards ← uprop_list asStr (jgetD sp "secondary_hazards" (.arr []))
  let location_description ← asOptStr (jget sp "location_description")
  let he := jgetD data "human_exposure" (.obj [])
  let population_density ← uprop asStr (jget he "population_density")
  let vulnerable_groups ← uprop_list asStr (jgetD he "vulnerable_groups" (.arr []))
  let time_of_day_context ← asOptStr (jget he "time_of_day_context")
  let be := jgetD data "built_environment" (.obj [])
  let dominant_building_types ← uprop_list asStr (jgetD be "dominant_building_types" (.arr []))
  let construction_quality ← uprop asStr (jget be "construction_quality")
  let critical_infrastructure_status ←
    reconstruct_cis (jgetD be "critical_infrastructure_status" (.obj []))
  let di := jgetD data "damage_indicators" (.obj [])
  let building_collapse_severity ← uprop asStr (jget di "building_collapse_severity")
  let access_disruption ← uprop asStr (jget di "access_disruption")
  let utility_failures ← uprop_list asStr (jgetD di "utility_failures" (.arr []))
  let visible_hazards ← uprop_list asStr (jgetD di "visible_hazards" (.arr []))
  let at_ := jgetD data "actions_taken" (.obj [])
  let rescue_operations ← uprop asStr (jget at_ "rescue_operations")
  let evacuation_status ← uprop asStr (jget at_ "evacuation_status")
  let medical_deployment ← uprop asStr (jget at_ "medical_deployment")
  let logistics_coordination ← uprop asStr (jget at_ "logistics_coordination")
  let out := jgetD data "outcomes" (.obj [])
  let outcomes ← (if jtruthy out then reconstruct_outcomes out else pure ({} : Outcomes))
  pure
    { event_identity :=
        { event_id := event_id, event_type := event_type, magnitude := magnitude,
          intensity := intensity, phase := phase, timestamp := none,
          time_since_event_hours := time_since_event_hours }
      spatial_context :=
        { region_type := region_type, terrain := terrain,
          secondary_hazards := secondary_hazards,
          location_description := location_description }
      human_exposure :=
        { population_density := population_density,
          vulnerable_groups := vulnerable_groups,
          time_of_day_context := time_of_day_context }
      built_environment :=
        { dominant_building_types := dominant_building_types,
          construction_quality := construction_quality,
          critical_infrastructure_status := critical_infrastructure_status }
      damage_indicators :=
        { building_collapse_severity := building_collapse_severity,
          access_disruption := access_disruption,
          utility_failures := utility_failures,
          visible_hazards := visible_hazards }
      actions_taken :=
        { rescue_operations := rescue_operations,
          evacuation_status := evacuation_status,
          medical_deployment := medical_deployment,
          logistics_coordination := logistics_coordination }
      outcomes := outcomes }

/-- `_reconstruct_experience_unit`: bracket access on `"phase"` and
`"source_case_id"` raises `KeyError` when the key is missing. -/
def reconstruct_experience_unit (payload : JVal) : Except String ExperienceUnit := do
  let situation ← reconstruct_situation (jgetD payload "situation" (.obj []))
  let outcomes_dict := jget payload "subsequent_outcomes"
  let subsequent_outcomes ← (if jtruthy outcomes_dict then
      do pure (some (← reconstruct_outcomes outcomes_dict))
    else pure (none : Option Outcomes))
  let phase_j ← jindex payload "phase"
  let phase ← (match phase_j with
    | .str s => TimePhase.ofValue s
    | _ => Except.error "ValueError: phase")
  let id_j ← jindex payload "source_case_id"
  let source_case_id ← (match id_j with
    | .str s => Except.ok s
    | _ => Except.error "TypeError: source_case_id")
  pure { situation := situation, phase := phase, source_case_id := source_case_id,
         subsequent_outcomes := subsequent_outcomes }

/-- The reconstruction loop of `retrieve_candidates`: hits with falsy
payloads are skipped; a reconstruction exception propagates and aborts
the whole call. -/
def reconstruct_hits : List Hit → Except String (List ExperienceUnit)
  | [] => .ok []
  | h :: t =>
      if jtruthy h.payload then do
        let u ← reconstruct_experience_unit h.payload
        let rest ← reconstruct_hits t
        pure (u :: rest)
      else reconstruct_hits t

/-- `retrieve_candidates`: raw search then reconstruction. -/
def retrieve_candidates (store : MockStore) (vector : List ℚ) (limit : ℕ := 5) :
    Except String (List ExperienceUnit) :=
  reconstruct_hits (search store vector limit)

end QdrantMemory

/-- A dict with one extra (unrecognized) key prepended — for stating
that deserialization ignores unknown fields. -/
def withExtra (j : JVal) (k : String) (v : JVal) : JVal :=
  match j with
  | .obj l => .obj ((k, v) :: l)
  | other => other

/-- A situation with its record metadata (`record_id`, `created_at`,
`timestamp`) dropped to defaults — what serialization round-trips can
recover. -/
def stripMeta (s : EarthquakeSituation) : EarthquakeSituation :=
  { s with
    record_id := none
    created_at := ""
    event_identity := { s.event_identity with timestamp := none } }

/-- A raw case dict carrying actions and outcomes (the spec's leakage
scenario S1): the ingestor must not let them reach early slices. -/
def rawEx : RawCase :=
  { identity := some { event_id := some "e1", magnitude := some 9 }
    damage := some { building_collapse := some "severe" }
    actions := some { rescue := some "deployed", medical := some "triage" }
    outcomes := some { casualties := some 15000, economic_loss := some "catastrophic" } }

/-- A recommendation with raw confidence 0.95 (spec scenario S5). -/
def rec95 : InterventionRecommendation :=
  { action_name := "evacuation", suggested_time_window := "0-12h", comparative_effect := ""
    confidence_score := 0.95, supporting_experience_count := 3 }

/-- A single baseline projection assessment calibrated to 0.3. -/
def base30 : List (String × ConfidenceAssessment) :=
  [("0-12h", { score := 0.3, label := "Low", explanation := "", drivers := [] })]

/-- Build a cohort member with the given actions and casualty outcome. -/
def mkCohortUnit (case_id : String) (acts : ActionsTaken) (cas : ℤ) (sc : ℚ) : SimilarityResult :=
  { experience_unit :=
      { situation := { actions_taken := acts }
        phase := .T2_STABILIZATION
        source_case_id := case_id
        subsequent_outcomes := some { casualties := some { value := some cas } } }
    score := sc, dimension_scores := ⟨0, 0, 0, 0⟩, penalties := [] }

/-- Spec scenario S4: three units with evacuation completed and 10
casualties, three without evacuation and 100 casualties. -/
def cohort6 : List SimilarityResult :=
  [ mkCohortUnit "a_0" { evacuation_status := some { value := some "completed" } } 10 0.9
  , mkCohortUnit "a_1" { evacuation_status := some { value := some "completed" } } 10 0.9
  , mkCohortUnit "a_2" { evacuation_status := some { value := some "completed" } } 10 0.9
  , mkCohortUnit "b_0" {} 100 0.85
  , mkCohortUnit "b_1" {} 100 0.85
  , mkCohortUnit "b_2" {} 100 0.85 ]

/-- The recommendation scenario S4 expects at the top. -/
def rec90 : InterventionRecommendation :=
  { action_name := "evacuation"
    suggested_time_window := "0-12h"
    comparative_effect := "Associated with 90% lower casualties in similar cases (10 vs 100)"
    confidence_score := 0.6
    supporting_experience_count := 3
    notes := "Observational correlation only." }

/-- A cohort in which only `logistics_coordination` is taken, with
outcome data on both partitions (lower mean casualties on the treated
side): the claimed logistics recommendation. -/
def logCohortEx : List SimilarityResult :=
  [ mkCohortUnit "l_0" { logistics_coordination := some { value := some "active" } } 10 0.9
  , mkCohortUnit "l_1" {} 100 0.9 ]

/-- A projection bucket with one candidate and range "500 - 500" (spec
scenario S6). -/
def projEx : ProjectionResult :=
  { horizon_label := "0-12h", casualty_range := "500 - 500",
    confidence_score := 0.9, supporting_experience_count := 1 }

/-- A minimal experience unit for the storage claims. -/
def unitEx : ExperienceUnit :=
  { situation := {}, phase := .T0_IMPACT, source_case_id := "case_x" }

/-- The store after `store_experience` of the same unit twice. -/
def storeTwice : MockStore :=
  QdrantMemory.store_experience (QdrantMemory.store_experience {} unitEx []) unitEx []

/-- A stored payload missing the mandatory `"phase"` key. -/
def badPayload : JVal :=
  .obj [("source_case_id", .str "c1"), ("situation", .obj [])]

/-- A store holding one well-formed payload and one payload missing its
mandatory `"phase"` key. -/
def badStore : MockStore :=
  { points := [ { id := "p1", vector := [], payload := unitEx.to_dict }
              , { id := "p2", vector := [], payload := badPayload } ] }

theorem pyRoundInt_le {x : ℚ} {n : ℤ} (h : x ≤ (n : ℚ)) : pyRoundInt x ≤ n := by
  have hfn : ⌊x⌋ ≤ n := by
    have h1 : (⌊x⌋ : ℚ) ≤ (n : ℚ) := le_trans (Int.floor_le x) h
    exact_mod_cast h1
  unfold pyRoundInt
  split_ifs with h1 h2 h3
  · exact hfn
  · have hlt : (⌊x⌋ : ℚ) < x := by linarith
    have hlt2 : (⌊x⌋ : ℚ) < (n : ℚ) := lt_of_lt_of_le hlt h
    have : ⌊x⌋ < n := by exact_mod_cast hlt2
    omega
  · exact hfn
  · have hge : 1/2 ≤ x - (⌊x⌋ : ℚ) := not_lt.mp h1
    have hlt : (⌊x⌋ : ℚ) < x := by linarith
    have hlt2 : (⌊x⌋ : ℚ) < (n : ℚ) := lt_of_lt_of_le hlt h
    have : ⌊x⌋ < n := by exact_mod_cast hlt2
    omega

theorem le_pyRoundInt {x : ℚ} {n : ℤ} (h : (n : ℚ) ≤ x) : n ≤ pyRoundInt x := by
  have hfl : n ≤ ⌊x⌋ := Int.le_floor.mpr h
  unfold pyRoundInt
  split_ifs with h1 h2 h3 <;> omega

theorem pyRoundInt_intCast (n : ℤ) : pyRoundInt (n : ℚ) = n :=
  le_antisymm (pyRoundInt_le le_rfl) (le_pyRoundInt le_rfl)

theorem round2_le_of_le {x : ℚ} {n : ℤ} (h : x ≤ (n : ℚ) / 100) :
    round2 x ≤ (n : ℚ) / 100 := by
  have h100 : x * 100 ≤ (n : ℚ) := by linarith
  have := pyRoundInt_le h100
  unfold round2
  have : (pyRoundInt (x * 100) : ℚ) ≤ (n : ℚ) := by exact_mod_cast this
  linarith

theorem le_round2_of_le {x : ℚ} {n : ℤ} (h : (n : ℚ) / 100 ≤ x) :
    (n : ℚ) / 100 ≤ round2 x := by
  have h100 : (n : ℚ) ≤ x * 100 := by linarith
  have := le_pyRoundInt h100
  unfold round2
  have : (n : ℚ) ≤ (pyRoundInt (x * 100) : ℚ) := by exact_mod_cast this
  linarith

theorem round4_le_of_le {x : ℚ} {n : ℤ} (h : x ≤ (n : ℚ) / 10000) :
    round4 x ≤ (n : ℚ) / 10000 := by
  have h10000 : x * 10000 ≤ (n : ℚ) := by linarith
  have := pyRoundInt_le h10000
  unfold round4
  have : (pyRoundInt (x * 10000) : ℚ) ≤ (n : ℚ) := by exact_mod_cast this
  linarith

theorem le_round4_of_le {x : ℚ} {n : ℤ} (h : (n : ℚ) / 10000 ≤ x) :
    (n : ℚ) / 10000 ≤ round4 x := by
  have h10000 : (n : ℚ) ≤ x * 10000 := by linarith
  have := le_pyRoundInt h10000
  unfold round4
  have : (n : ℚ) ≤ (pyRoundInt (x * 10000) : ℚ) := by exact_mod_cast this
  linarith

theorem ratTrunc_intCast (n : ℤ) : ratTrunc (n : ℚ) = n := by
  unfold ratTrunc
  by_cases h : (n : ℚ) < 0
  · simp only [h, if_true]
    rw [← Int.cast_neg, Int.floor_intCast]
    omega
  · simp [h, Int.floor_intCast]

theorem round2_zero : round2 0 = 0 := by
  have h := pyRoundInt_intCast 0
  simp only [round2, zero_mul]
  rw [show ((0 : ℤ) : ℚ) = 0 from rfl] at h
  rw [h]
  norm_num

theorem round2_nonpos {x : ℚ} (h : x ≤ 0) : round2 x ≤ 0 := by
  have h0 : x ≤ ((0 : ℤ) : ℚ) / 100 := by simpa using h
  have := round2_le_of_le h0
  simpa using this

section ConfidenceTheorems

open ConfidenceIntegrator

theorem max_int_div_100 (a b : ℤ) :
    max ((a : ℚ) / 100) ((b : ℚ) / 100) = ((max a b : ℤ) : ℚ) / 100 := by
  rcases le_total a b with h | h
  · have hq : (a : ℚ) / 100 ≤ (b : ℚ) / 100 := by
      have : (a : ℚ) ≤ (b : ℚ) := by exact_mod_cast h
      linarith
    rw [max_eq_right hq, max_eq_right h]
  · have hq : (b : ℚ) / 100 ≤ (a : ℚ) / 100 := by
      have : (b : ℚ) ≤ (a : ℚ) := by exact_mod_cast h
      linarith
    rw [max_eq_left hq, max_eq_left h]

theorem foldl_max_hundredths (t : List (String × ConfidenceAssessment)) (init : ℚ)
    (hinit : ∃ n : ℤ, init = (n : ℚ) / 100)
    (h : ∀ p ∈ t, ∃ n : ℤ, p.2.score = (n : ℚ) / 100) :
    ∃ n : ℤ, t.foldl (fun m q => max m q.2.score) init = (n : ℚ) / 100 := by
  induction t generalizing init with
  | nil => simpa using hinit
  | cons q r ih =>
      simp only [List.foldl_cons]
      apply ih
      · obtain ⟨a, ha⟩ := hinit
        obtain ⟨b, hb⟩ := h q (List.mem_cons_self q r)
        exact ⟨max a b, by rw [ha, hb, max_int_div_100]⟩
      · intro p hp
        exact h p (List.mem_cons_of_mem q hp)

theorem max_score_hundredths {base : List (String × ConfidenceAssessment)}
    (h100 : ∀ p ∈ base, ∃ n : ℤ, p.2.score = (n : ℚ) / 100) :
    ∃ n : ℤ, max_score base = (n : ℚ) / 100 := by
  match base with
  | [] => exact ⟨0, by simp [max_score]⟩
  | p :: t =>
      simp only [max_score]
      exact foldl_max_hundredths t p.2.score (h100 p (List.mem_cons_self p t))
        (fun q hq => h100 q (List.mem_cons_of_mem p hq))

theorem mem_calibrate {recs : List InterventionRecommendation}
    {base : List (String × ConfidenceAssessment)}
    {rec : InterventionRecommendation} {asm : ConfidenceAssessment}
    (hmem : (rec, asm) ∈ calibrate_interventions recs base) :
    asm = assess_intervention rec base := by
  simp only [calibrate_interventions, List.mem_map] at hmem
  obtain ⟨r, _, heq⟩ := hmem
  have h1 : r = rec := congrArg Prod.fst heq
  have h2 : assess_intervention r base = asm := congrArg Prod.snd heq
  rw [← h2, h1]

/-- C2: every calibrated intervention confidence score emitted by
`calibrate_interventions` is at most the maximum baseline projection
assessment score (`max_score`, 0.0 for an empty map); when the raw
confidence exceeds that ceiling the drivers include "Capped by baseline
uncertainty"; and with no baseline projection the emitted score is 0.0
with driver "No baseline projection".  Baseline projection assessments
carry two-decimal scores (they are produced by `_assess_projection`,
which rounds), which the hypothesis `h100` records; the nonnegativity of
the reasoner's raw confidence feeds the zero-score conclusion. -/
theorem c2_intervention_confidence_capped
    (recs : List InterventionRecommendation)
    (base : List (String × ConfidenceAssessment))
    (h100 : ∀ p ∈ base, ∃ n : ℤ, p.2.score = (n : ℚ) / 100)
    (rec : InterventionRecommendation) (asm : ConfidenceAssessment)
    (hmem : (rec, asm) ∈ ConfidenceIntegrator.calibrate_interventions recs base) :
    asm.score ≤ ConfidenceIntegrator.max_score base
    ∧ (ConfidenceIntegrator.max_score base < rec.confidence_score →
        "Capped by baseline uncertainty" ∈ asm.drivers)
    ∧ (base = [] → 0 ≤ rec.confidence_score →
        asm.score = 0 ∧ "No baseline projection" ∈ asm.drivers) := by
  have hasm := mem_calibrate hmem
  subst hasm
  by_cases hb : base.isEmpty = true
  · have hbase : base = [] := by
      cases base with
      | nil => rfl
      | cons p t => simp [List.isEmpty] at hb
    subst hbase
    simp only [ConfidenceIntegrator.assess_intervention, List.isEmpty_nil, if_true,
      ConfidenceIntegrator.max_score]
    split_ifs with hsup hcap hcap
    · refine ⟨?_, fun _ => by simp, fun _ _ => ⟨?_, by simp⟩⟩
      all_goals
        simp only
        rw [show min (0 : ℚ) 0.4 = 0 by norm_num, round2_zero]
    · have hle : rec.confidence_score ≤ 0 := not_lt.mp hcap
      refine ⟨?_, fun hlt => absurd hlt (not_lt.mpr hle), fun _ hge => ?_⟩
      · exact round2_nonpos (le_trans (min_le_left _ _) hle)
      · have h0 : rec.confidence_score = 0 := le_antisymm hle hge
        refine ⟨?_, by simp⟩
        simp only [h0]
        rw [show min (0 : ℚ) 0.4 = 0 by norm_num, round2_zero]
    · refine ⟨?_, fun _ => by simp, fun _ _ => ⟨?_, by simp⟩⟩
      all_goals simp only; rw [round2_zero]
    · have hle : rec.confidence_score ≤ 0 := not_lt.mp hcap
      refine ⟨round2_nonpos hle, fun hlt => absurd hlt (not_lt.mpr hle), fun _ hge => ?_⟩
      have h0 : rec.confidence_score = 0 := le_antisymm hle hge
      refine ⟨?_, by simp⟩
      simp only [h0]
      rw [round2_zero]
  · have hbase : base ≠ [] := by
      intro h
      subst h
      simp at hb
    obtain ⟨n, hn⟩ := max_score_hundredths h100
    simp only [ConfidenceIntegrator.assess_intervention]
    rw [if_neg hb]
    dsimp only
    split_ifs with hsup hcap hcap
    · refine ⟨?_, fun _ => by simp, fun h => absurd h hbase⟩
      simp only
      rw [hn]
      exact round2_le_of_le (min_le_left _ _)
    · have hle : rec.confidence_score ≤ ConfidenceIntegrator.max_score base := not_lt.mp hcap
      refine ⟨?_, fun hlt => absurd hlt (not_lt.mpr hle), fun h => absurd h hbase⟩
      simp only
      rw [hn]
      exact round2_le_of_le (le_trans (min_le_left _ _) (hn ▸ hle))
    · refine ⟨?_, fun _ => by simp, fun h => absurd h hbase⟩
      simp only
      rw [hn]
      exact round2_le_of_le le_rfl
    · have hle : rec.confidence_score ≤ ConfidenceIntegrator.max_score base := not_lt.mp hcap
      refine ⟨?_, fun hlt => absurd hlt (not_lt.mpr hle), fun h => absurd h hbase⟩
      simp only
      rw [hn]
      exact round2_le_of_le (hn ▸ hle)

/-- C2 witness: scenario S5 — a single baseline calibrated to 0.3 and a
raw intervention confidence of 0.95 give a final score of at most 0.30
with the cap driver; an empty baseline map gives score 0.0 with the
"No baseline projection" driver. -/
theorem c2_witness :
    (ConfidenceIntegrator.assess_intervention rec95 base30).score ≤ 0.3
    ∧ "Capped by baseline uncertainty"
        ∈ (ConfidenceIntegrator.assess_intervention rec95 base30).drivers
    ∧ (ConfidenceIntegrator.assess_intervention rec95 []).score = 0
    ∧ "No baseline projection" ∈ (ConfidenceIntegrator.assess_intervention rec95 []).drivers := by
  have h1 := c2_intervention_confidence_capped [rec95] base30
    (by
      intro p hp
      refine ⟨30, ?_⟩
      have : p = ("0-12h", { score := 0.3, label := "Low", explanation := "", drivers := [] }) := by
        simpa [base30] using hp
      rw [this]
      norm_num)
    rec95 (ConfidenceIntegrator.assess_intervention rec95 base30)
    (by simp [ConfidenceIntegrator.calibrate_interventions, base30])
  have h2 := c2_intervention_confidence_capped [rec95] []
    (by intro p hp; simp at hp)
    rec95 (ConfidenceIntegrator.assess_intervention rec95 [])
    (by simp [ConfidenceIntegrator.calibrate_interventions])
  refine ⟨?_, ?_, ?_, ?_⟩
  · have hceil : ConfidenceIntegrator.max_score base30 = 0.3 := by with_unfolding_all rfl
    calc (ConfidenceIntegrator.assess_intervention rec95 base30).score
        ≤ ConfidenceIntegrator.max_score base30 := h1.1
      _ = 0.3 := hceil
  · exact h1.2.1 (by with_unfolding_all decide)
  · exact (h2.2.2 rfl (by norm_num [rec95])).1
  · exact (h2.2.2 rfl (by norm_num [rec95])).2

/-- C6: projection calibration — a support count below 3 caps the score
at 0.6 and adds the sparse-data driver; a raw score below 0.4 adds the
weak-similarity driver; and for every projection whose casualty-range
endpoints coincide (the code's parse: the range is not "unknown",
contains "-", splits into exactly two parts with equal trims) and whose
support count is below 2, the capped score is multiplied by 0.8 and
rounded to 2 decimals — so it is at most 0.48 — with both the
sparse-data and single-data-point drivers present (which also certifies
the order of the three steps: cap before multiplier before rounding). -/
theorem c6_projection_calibration (proj : ProjectionResult) :
    (proj.supporting_experience_count < 3 →
       "Sparse data (<3 cases)" ∈ (ConfidenceIntegrator.assess_projection proj).drivers
       ∧ (ConfidenceIntegrator.assess_projection proj).score ≤ 0.6)
    ∧ (proj.confidence_score < 0.4 →
       "Weak similarity matches" ∈ (ConfidenceIntegrator.assess_projection proj).drivers)
    ∧ (∀ p0 p1, proj.casualty_range ≠ "unknown" →
       strContains proj.casualty_range "-" = true →
       pySplit proj.casualty_range "-" = [p0, p1] →
       pyTrim p0 = pyTrim p1 →
       proj.supporting_experience_count < 2 →
       (ConfidenceIntegrator.assess_projection proj).score
           = round2 ((min proj.confidence_score 0.6) * 0.8)
       ∧ (ConfidenceIntegrator.assess_projection proj).score ≤ 0.48
       ∧ "Sparse data (<3 cases)" ∈ (ConfidenceIntegrator.assess_projection proj).drivers
       ∧ "Single data point source" ∈ (ConfidenceIntegrator.assess_projection proj).drivers) := by
  have h06 : ((60 : ℤ) : ℚ) / 100 = 0.6 := by norm_num
  have h048 : ((48 : ℤ) : ℚ) / 100 = 0.48 := by norm_num
  refine ⟨?_, ?_, ?_⟩
  · intro h3
    simp only [ConfidenceIntegrator.assess_projection]
    rw [if_pos h3]
    dsimp only
    constructor
    · split_ifs <;>
        first
          | (split <;> first | (split_ifs <;> simp) | simp)
          | simp
    · rw [← h06]
      apply round2_le_of_le
      have hm : min proj.confidence_score (0.6 : ℚ) ≤ 0.6 := min_le_right _ _
      push_cast
      split_ifs <;>
        first
          | (split <;>
              first
                | (split_ifs <;> dsimp only <;> linarith)
                | (dsimp only; linarith))
          | (dsimp only; linarith)
  · intro h4
    simp only [ConfidenceIntegrator.assess_projection]
    split_ifs <;>
      first
        | (exfalso; linarith [min_le_left proj.confidence_score (0.6 : ℚ)])
        | (split <;> first | (split_ifs <;> simp) | simp)
        | simp
  · intro p0 p1 hne hc hsp htr hlt2
    have h3 : proj.supporting_experience_count < 3 := by omega
    simp only [ConfidenceIntegrator.assess_projection]
    rw [if_pos h3]
    dsimp only
    rw [if_pos ⟨hne, hc⟩, hsp]
    dsimp only
    rw [if_pos ⟨htr, hlt2⟩]
    dsimp only
    refine ⟨rfl, ?_, ?_, ?_⟩
    · rw [← h048]
      apply round2_le_of_le
      have hm : min proj.confidence_score (0.6 : ℚ) ≤ 0.6 := min_le_right _ _
      push_cast
      linarith
    · split_ifs <;> simp
    · split_ifs <;> simp

/-- C6 witness: scenario S6 at a concrete projection — one candidate,
range "500 - 500", raw score 0.9 — yields score = round2(0.6 × 0.8),
at most 0.48, with both drivers. -/
theorem c6_witness :
    (ConfidenceIntegrator.assess_projection projEx).score
        = round2 ((min projEx.confidence_score 0.6) * 0.8)
    ∧ (ConfidenceIntegrator.assess_projection projEx).score ≤ 0.48
    ∧ "Sparse data (<3 cases)" ∈ (ConfidenceIntegrator.assess_projection projEx).drivers
    ∧ "Single data point source" ∈ (ConfidenceIntegrator.assess_projection projEx).drivers :=
  (c6_projection_calibration projEx).2.2 "500 " " 500" (by decide) (by decide)
    (by decide) (by decide) (by decide)

end ConfidenceTheorems

section ReasonerTheorems

open InterventionReasoner

theorem mem_sadd (s : List String) (x a : String) : a ∈ sadd s x ↔ a ∈ s ∨ a = x := by
  unfold sadd
  split_ifs with h
  · constructor
    · exact Or.inl
    · rintro (hs | rfl)
      · exact hs
      · exact h
  · simp [List.mem_append]

theorem mem_collect (acc : List String) (res : SimilarityResult) (a : String) :
    a ∈ collect_actions acc res ↔
      a ∈ acc
      ∨ (a = "rescue_operations"
          ∧ has_action res.experience_unit.situation.actions_taken.rescue_operations = true)
      ∨ (a = "evacuation"
          ∧ has_action res.experience_unit.situation.actions_taken.evacuation_status = true)
      ∨ (a = "medical_deployment"
          ∧ has_action res.experience_unit.situation.actions_taken.medical_deployment = true) := by
  unfold collect_actions collect_evac collect_rescue
  split_ifs <;> (try simp only [mem_sadd]) <;> (try simp_all) <;> tauto

theorem mem_foldl_collect (l : List SimilarityResult) (acc : List String) (a : String) :
    a ∈ l.foldl collect_actions acc ↔
      a ∈ acc
      ∨ (a = "rescue_operations" ∧ ∃ r ∈ l,
          has_action r.experience_unit.situation.actions_taken.rescue_operations = true)
      ∨ (a = "evacuation" ∧ ∃ r ∈ l,
          has_action r.experience_unit.situation.actions_taken.evacuation_status = true)
      ∨ (a = "medical_deployment" ∧ ∃ r ∈ l,
          has_action r.experience_unit.situation.actions_taken.medical_deployment = true) := by
  induction l generalizing acc with
  | nil => simp
  | cons r t ih =>
      simp only [List.foldl_cons, ih, mem_collect, List.mem_cons, exists_eq_or_imp]
      aesop

/-- C4 amended: the candidate actions collected by
`recommend_interventions` are exactly the three kinds
rescue_operations, evacuation and medical_deployment for which some
cohort unit carries a non-null value outside {"none","pending","unknown"};
`logistics_coordination` is never collected (see the counterexample for
the concrete logistics-only cohort that yields no recommendation). -/
theorem c4_amended_potential_actions (cohort : List SimilarityResult) (a : String) :
    a ∈ potential_actions cohort ↔
      (a = "rescue_operations" ∧ ∃ r ∈ cohort,
          has_action r.experience_unit.situation.actions_taken.rescue_operations = true)
      ∨ (a = "evacuation" ∧ ∃ r ∈ cohort,
          has_action r.experience_unit.situation.actions_taken.evacuation_status = true)
      ∨ (a = "medical_deployment" ∧ ∃ r ∈ cohort,
          has_action r.experience_unit.situation.actions_taken.medical_deployment = true) := by
  have h := mem_foldl_collect cohort [] a
  simpa [potential_actions] using h

/-- C4 counterexample: for a cohort in which only
`logistics_coordination` is taken — with outcome data on both partitions
and lower mean casualties on the treated side — `recommend_interventions`
emits no recommendation at all, contradicting the claimed logistics
recommendation. -/
theorem c4_counterexample :
    recommend_interventions .T1_EARLY_RESPONSE logCohortEx = [] := by
  with_unfolding_all rfl

/-- C5: for every action whose treated and untreated partitions are both
non-empty and both carry casualty data, a recommendation is emitted iff
the treated mean is lower, and the emitted recommendation carries the
percentage-lower-casualties effect text (integer-rendered, as the code
prints `int(pct)`), confidence `min(0.9, (|with|+|without|)/10)` rounded
to 2 decimals, support `|with|`, window "0-12h" and the observational
note. -/
theorem c5_evaluate_action_spec (action_key : String) (cohort : List SimilarityResult)
    (aw awo : ℚ)
    (hw : group_with action_key cohort ≠ [])
    (hwo : group_without action_key cohort ≠ [])
    (havg1 : get_avg_casualties (group_with action_key cohort) = some aw)
    (havg2 : get_avg_casualties (group_without action_key cohort) = some awo) :
    ((evaluate_action action_key cohort).isSome ↔ aw < awo)
    ∧ (aw < awo →
        evaluate_action action_key cohort = some
          { action_name := action_key
            suggested_time_window := "0-12h"
            comparative_effect := mkEffect
              (ratTrunc (if awo > 0 then (awo - aw) / awo * 100 else 0))
              (ratTrunc aw) (ratTrunc awo)
            confidence_score := round2 (min 0.9
              ((((group_with action_key cohort).length : ℚ)
                + ((group_without action_key cohort).length : ℚ)) / 10))
            supporting_experience_count := (group_with action_key cohort).length
            notes := "Observational correlation only." }) := by
  have h1 : (group_with action_key cohort).isEmpty = false := by
    cases hgw : group_with action_key cohort with
    | nil => exact absurd hgw hw
    | cons x xs => rfl
  have h2 : (group_without action_key cohort).isEmpty = false := by
    cases hgw : group_without action_key cohort with
    | nil => exact absurd hgw hwo
    | cons x xs => rfl
  unfold evaluate_action
  rw [if_neg (show ¬(((group_with action_key cohort).isEmpty
      || (group_without action_key cohort).isEmpty) = true) by rw [h1, h2]; simp)]
  rw [havg1, havg2]
  dsimp only
  constructor
  · by_cases hlt : aw < awo
    · rw [if_pos hlt]
      simp [hlt]
    · rw [if_neg hlt]
      simp [hlt]
  · intro hlt
    rw [if_pos hlt]

/-- C5 witness: scenario S4 — a cohort of 6 units, 3 with evacuation
completed and casualties 10, 3 without evacuation and casualties 100 —
yields the single top recommendation "evacuation" with effect stating
90% lower casualties and support 3. -/
theorem c5_witness :
    evaluate_action "evacuation" cohort6 = some rec90
    ∧ recommend_interventions .T1_EARLY_RESPONSE cohort6 = [rec90] := by
  have h := (c5_evaluate_action_spec "evacuation" cohort6 10 100
    (by with_unfolding_all decide) (by with_unfolding_all decide)
    (by with_unfolding_all rfl) (by with_unfolding_all rfl)).2 (by norm_num)
  refine ⟨h.trans ?_, ?_⟩
  · with_unfolding_all rfl
  · with_unfolding_all rfl

end ReasonerTheorems

section SimilarityTheorems

open SimilarityEngine

theorem scale_sim_bounds (q c : EarthquakeSituation) :
    0 ≤ compute_scale_similarity q c ∧ compute_scale_similarity q c ≤ 1 := by
  unfold compute_scale_similarity
  rcases get_val q.event_identity.magnitude with _ | qm <;>
    rcases get_val c.event_identity.magnitude with _ | cm <;>
    dsimp only
  · norm_num
  · norm_num
  · norm_num
  · constructor
    · exact le_max_left _ _
    · apply max_le
      · norm_num
      · have h : 0 ≤ |qm - cm| / 3 := by positivity
        linarith

theorem spatial_sim_bounds (q c : EarthquakeSituation) :
    0 ≤ compute_spatial_similarity q c ∧ compute_spatial_similarity q c ≤ 1 := by
  unfold compute_spatial_similarity
  split_ifs <;> norm_num

theorem human_sim_bounds (q c : EarthquakeSituation) :
    0 ≤ compute_human_similarity q c ∧ compute_human_similarity q c ≤ 1 := by
  unfold compute_human_similarity
  split_ifs <;> norm_num

theorem built_sim_bounds (q c : EarthquakeSituation) :
    0 ≤ compute_built_similarity q c ∧ compute_built_similarity q c ≤ 1 := by
  unfold compute_built_similarity
  split_ifs with hbe he hu
  · norm_num
  · norm_num
  · have hcard : ((get_list_vals q.built_environment.dominant_building_types
        ∩ get_list_vals c.built_environment.dominant_building_types).card : ℚ)
        ≤ ((get_list_vals q.built_environment.dominant_building_types
        ∪ get_list_vals c.built_environment.dominant_building_types).card : ℚ) := by
      exact_mod_cast Finset.card_le_card (Finset.inter_subset_union)
    have hupos : (0 : ℚ) < ((get_list_vals q.built_environment.dominant_building_types
        ∪ get_list_vals c.built_environment.dominant_building_types).card : ℚ) := by
      exact_mod_cast hu
    constructor
    · positivity
    · rw [div_le_one hupos]
      exact hcard
  · norm_num

theorem round4_mem_unit {x : ℚ} (h0 : 0 ≤ x) (h1 : x ≤ 1) :
    0 ≤ round4 x ∧ round4 x ≤ 1 := by
  constructor
  · have := le_round4_of_le (n := 0) (by simpa using h0)
    simpa using this
  · have := round4_le_of_le (x := x) (n := 10000) (by push_cast; linarith)
    have hc : ((10000 : ℤ) : ℚ) / 10000 = 1 := by norm_num
    rw [hc] at this
    exact this

/-- C3: with the default weights, the similarity score is in [0, 1]
(including after the 0.8 phase-mismatch penalty), and the computation is
deterministic — `compute_similarity` is a pure function, so two calls on
the same query and candidate produce the identical result (score,
per-dimension scores and penalties alike). -/
theorem c3_similarity_bounded_and_deterministic (query : EarthquakeSituation)
    (candidate : ExperienceUnit) :
    0 ≤ (compute_similarity (SimilarityEngine.init none) query candidate).score
    ∧ (compute_similarity (SimilarityEngine.init none) query candidate).score ≤ 1
    ∧ compute_similarity (SimilarityEngine.init none) query candidate
        = compute_similarity (SimilarityEngine.init none) query candidate := by
  have hw : (SimilarityEngine.init none).weights
      = { scale := 0.3, spatial := 0.25, human := 0.2, built := 0.25 } := by
    with_unfolding_all rfl
  obtain ⟨ha0, ha1⟩ := scale_sim_bounds query candidate.situation
  obtain ⟨hb0, hb1⟩ := spatial_sim_bounds query candidate.situation
  obtain ⟨hc0, hc1⟩ := human_sim_bounds query candidate.situation
  obtain ⟨hd0, hd1⟩ := built_sim_bounds query candidate.situation
  have hraw : 0 ≤ compute_scale_similarity query candidate.situation * (0.3 : ℚ)
        + compute_spatial_similarity query candidate.situation * 0.25
        + compute_human_similarity query candidate.situation * 0.2
        + compute_built_similarity query candidate.situation * 0.25
      ∧ compute_scale_similarity query candidate.situation * (0.3 : ℚ)
        + compute_spatial_similarity query candidate.situation * 0.25
        + compute_human_similarity query candidate.situation * 0.2
        + compute_built_similarity query candidate.situation * 0.25 ≤ 1 := by
    constructor <;> nlinarith
  refine ⟨?_, ?_, rfl⟩ <;>
    · unfold compute_similarity
      rw [hw]
      dsimp only
      rcases query.event_identity.phase with _ | qp
      · dsimp only
        first
          | exact (round4_mem_unit hraw.1 hraw.2).1
          | exact (round4_mem_unit hraw.1 hraw.2).2
      · dsimp only
        split_ifs
        · first
            | exact (round4_mem_unit hraw.1 hraw.2).1
            | exact (round4_mem_unit hraw.1 hraw.2).2
        · first
            | exact (round4_mem_unit (by nlinarith) (by nlinarith)).1
            | exact (round4_mem_unit (by nlinarith) (by nlinarith)).2
        · first
            | exact (round4_mem_unit hraw.1 hraw.2).1
            | exact (round4_mem_unit hraw.1 hraw.2).2

/-- C10: when the query's phase is `None` or the empty string, the
truthiness guard skips the phase penalty entirely: the penalties list is
empty and the score is exactly the weighted dimension sum rounded to 4
decimals. -/
theorem c10_unphased_query_no_penalty (e : SimilarityEngine)
    (query : EarthquakeSituation) (candidate : ExperienceUnit)
    (h : query.event_identity.phase = none ∨ query.event_identity.phase = some "") :
    (compute_similarity e query candidate).penalties = []
    ∧ (compute_similarity e query candidate).score =
        round4 (compute_scale_similarity query candidate.situation * e.weights.scale
          + compute_spatial_similarity query candidate.situation * e.weights.spatial
          + compute_human_similarity query candidate.situation * e.weights.human
          + compute_built_similarity query candidate.situation * e.weights.built) := by
  rcases h with h | h <;> simp [compute_similarity, h]

/-- C10 witness: a query with no phase receives no penalty against a T0
candidate. -/
theorem c10_witness :
    (compute_similarity (SimilarityEngine.init none) {} unitEx).penalties = []
    ∧ (compute_similarity (SimilarityEngine.init none) {} unitEx).score =
        round4 (compute_scale_similarity {} unitEx.situation * (SimilarityEngine.init none).weights.scale
          + compute_spatial_similarity {} unitEx.situation * (SimilarityEngine.init none).weights.spatial
          + compute_human_similarity {} unitEx.situation * (SimilarityEngine.init none).weights.human
          + compute_built_similarity {} unitEx.situation * (SimilarityEngine.init none).weights.built) :=
  c10_unphased_query_no_penalty (SimilarityEngine.init none) {} unitEx (Or.inl rfl)

end SimilarityTheorems

section IngestTheorems

open CaseStudyIngestor

/-- C1: for every raw case dict, `ingest_case_study` produces slices in
strict phase order T0 < T1 < T2 < T3; every slice at phase T0, T1 or T2
has empty outcomes (all four outcome fields absent); the T0 slice keeps
the default `ActionsTaken`; and the T1 slice has no medical deployment
and no logistics coordination — all regardless of what the raw dict
contains (the quantification includes dicts whose `actions` and
`outcomes` sub-dicts are fully populated). -/
theorem c1_ingest_phase_order_and_empty_outcomes (data : RawCase) :
    List.Chain' (fun a b => a.phase.idx < b.phase.idx) (ingest_case_study data)
    ∧ ∀ ts ∈ ingest_case_study data,
        (ts.phase ≠ .T3_OUTCOME → ts.situation.outcomes = ({} : Outcomes))
        ∧ (ts.phase = .T0_IMPACT → ts.situation.actions_taken = ({} : ActionsTaken))
        ∧ (ts.phase = .T1_EARLY_RESPONSE →
            ts.situation.actions_taken.medical_deployment = none
            ∧ ts.situation.actions_taken.logistics_coordination = none) := by
  unfold ingest_case_study
  have h1 : has_data_for_phase data .T1_EARLY_RESPONSE = true := rfl
  have h2 : has_data_for_phase data .T2_STABILIZATION = true := rfl
  have h3 : has_data_for_phase data .T3_OUTCOME = true := rfl
  by_cases h0 : has_data_for_phase data .T0_IMPACT = true
  · rw [if_pos h0, if_pos h1, if_pos h2, if_pos h3]
    constructor
    · simp [List.chain'_cons, create_slice_t0, create_slice_t1, create_slice_t2,
        create_slice_t3, TimePhase.idx]
    · intro ts hts
      simp only [List.cons_append, List.nil_append, List.mem_cons,
        List.not_mem_nil, or_false] at hts
      rcases hts with rfl | rfl | rfl | rfl
      · refine ⟨fun _ => rfl, fun _ => rfl, fun h => ?_⟩
        simp [create_slice_t0] at h
      · refine ⟨fun _ => rfl, fun h => ?_, fun _ => ⟨rfl, rfl⟩⟩
        simp [create_slice_t1] at h
      · refine ⟨fun _ => rfl, fun h => ?_, fun h => ?_⟩ <;> simp [create_slice_t2] at h
      · refine ⟨fun h => absurd rfl h, fun h => ?_, fun h => ?_⟩ <;> simp [create_slice_t3] at h
  · rw [if_neg h0, if_pos h1, if_pos h2, if_pos h3]
    constructor
    · simp [List.chain'_cons, create_slice_t1, create_slice_t2,
        create_slice_t3, TimePhase.idx]
    · intro ts hts
      simp only [List.nil_append, List.cons_append, List.mem_cons,
        List.not_mem_nil, or_false] at hts
      rcases hts with rfl | rfl | rfl
      · refine ⟨fun _ => rfl, fun h => ?_, fun _ => ⟨rfl, rfl⟩⟩
        simp [create_slice_t1] at h
      · refine ⟨fun _ => rfl, fun h => ?_, fun h => ?_⟩ <;> simp [create_slice_t2] at h
      · refine ⟨fun h => absurd rfl h, fun h => ?_, fun h => ?_⟩ <;> simp [create_slice_t3] at h

/-- C1 witness: the leakage-scenario raw dict (magnitude, damage,
actions including medical, outcomes including casualties) produces
phase-ordered slices, and its T1 slice is a member with no medical
deployment and empty outcomes. -/
theorem c1_witness :
    List.Chain' (fun a b => a.phase.idx < b.phase.idx) (ingest_case_study rawEx)
    ∧ create_slice_t1 rawEx ∈ ingest_case_study rawEx
    ∧ (create_slice_t1 rawEx).situation.actions_taken.medical_deployment = none
    ∧ (create_slice_t1 rawEx).situation.outcomes = ({} : Outcomes) := by
  have h := c1_ingest_phase_order_and_empty_outcomes rawEx
  have hmem : create_slice_t1 rawEx ∈ ingest_case_study rawEx := by
    with_unfolding_all decide
  exact ⟨h.1, hmem, ((h.2 _ hmem).2.2 rfl).1, (h.2 _ hmem).1 (by decide)⟩

end IngestTheorems

section MemoryTheorems

open QdrantMemory

theorem exc_bind_ok {ε α β : Type} (a : α) (f : α → Except ε β) :
    (Except.ok a >>= f) = f a := rfl

theorem exc_bind_error {ε α β : Type} (e : ε) (f : α → Except ε β) :
    ((Except.error e : Except ε α) >>= f) = .error e := rfl

/-- C8 counterexample: storing the same unit twice through the fallback
client leaves two points in the store (not the state of a single call),
and a subsequent retrieval returns two copies of the unit — refuting
idempotence of `store_experience` on the in-repo store. -/
theorem c8_counterexample :
    storeTwice.points.length = 2
    ∧ retrieve_candidates storeTwice [] 5 = .ok [unitEx, unitEx] := by
  constructor
  · with_unfolding_all rfl
  · with_unfolding_all rfl

/-- C8 amended: the point id is a deterministic function of
`source_case_id` and `phase`, so two calls with the same unit compute the
same id; but the fallback client's `upsert` appends rather than
replacing, so the two calls leave two points (the store is not in the
state of a single call, and retrieval can return both copies — see the
counterexample). -/
theorem c8_amended_deterministic_id (s : MockStore) (u1 u2 : ExperienceUnit)
    (v1 v2 : List ℚ)
    (hid : u1.source_case_id = u2.source_case_id) (hph : u1.phase = u2.phase) :
    point_id u1 = point_id u2
    ∧ (store_experience (store_experience s u1 v1) u2 v2).points.length
        = s.points.length + 2 := by
  constructor
  · unfold point_id uuid5
    rw [hid, hph]
  · simp [store_experience]

/-- C8 witness: the deterministic id and the two-point store at the
concrete unit and the empty store. -/
theorem c8_witness :
    point_id unitEx = point_id unitEx
    ∧ (store_experience (store_experience {} unitEx []) unitEx []).points.length
        = ({} : MockStore).points.length + 2 :=
  c8_amended_deterministic_id {} unitEx unitEx [] [] rfl rfl

theorem reconstruct_unit_fails {p : JVal} (hmiss : jlookup p "phase" = none) :
    ∀ u, reconstruct_experience_unit p ≠ .ok u := by
  intro u
  unfold reconstruct_experience_unit
  cases hs : reconstruct_situation (jgetD p "situation" (.obj [])) with
  | error e => simp [exc_bind_error, hs]
  | ok s =>
      simp only [hs, exc_bind_ok]
      by_cases ho : jtruthy (jget p "subsequent_outcomes") = true
      · rw [if_pos ho]
        cases hr : reconstruct_outcomes (jget p "subsequent_outcomes") with
        | error e => simp [exc_bind_error, hr]
        | ok o =>
            simp only [hr, exc_bind_ok]
            have : jindex p "phase" = .error ("KeyError: " ++ "phase") := by
              unfold jindex
              rw [hmiss]
            simp [this, exc_bind_error]
      · rw [if_neg ho]
        have : jindex p "phase" = .error ("KeyError: " ++ "phase") := by
          unfold jindex
          rw [hmiss]
        simp [this, exc_bind_error, exc_bind_ok]

theorem reconstruct_hits_err {hits : List Hit} {h : Hit} (hmem : h ∈ hits)
    (htr : jtruthy h.payload = true)
    (hfail : ∀ u, reconstruct_experience_unit h.payload ≠ .ok u) :
    ∃ e, reconstruct_hits hits = .error e := by
  induction hits with
  | nil => cases hmem
  | cons h0 t ih =>
      rcases List.mem_cons.mp hmem with rfl | hmem'
      · unfold reconstruct_hits
        rw [if_pos htr]
        cases hr : reconstruct_experience_unit h.payload with
        | error e => exact ⟨e, by simp [hr, exc_bind_error]⟩
        | ok u => exact absurd hr (hfail u)
      · by_cases ht0 : jtruthy h0.payload = true
        · unfold reconstruct_hits
          rw [if_pos ht0]
          cases hr : reconstruct_experience_unit h0.payload with
          | error e => exact ⟨e, by simp [hr, exc_bind_error]⟩
          | ok u =>
              obtain ⟨e, he⟩ := ih hmem'
              exact ⟨e, by simp [hr, exc_bind_ok, he, exc_bind_error]⟩
        · unfold reconstruct_hits
          rw [if_neg ht0]
          exact ih hmem'

/-- C9 counterexample: a store holding one well-formed payload and one
payload missing its mandatory `"phase"` key makes `retrieve_candidates`
raise (propagate `KeyError`) instead of skipping the malformed candidate
and returning the remaining one. -/
theorem c9_counterexample :
    retrieve_candidates badStore [] 5 = .error ("KeyError: phase") := by
  with_unfolding_all rfl

/-- C9 amended: when any searched hit carries a truthy payload lacking
the mandatory `"phase"` key, `retrieve_candidates` propagates an error
(Python `KeyError`) and returns no candidates at all; malformed stored
payloads are not skipped (only hits with absent/falsy payloads are). -/
theorem c9_amended_error_propagates (store : MockStore) (vector : List ℚ)
    (limit : ℕ) (h : Hit)
    (hmem : h ∈ search store vector limit)
    (htr : jtruthy h.payload = true)
    (hmiss : jlookup h.payload "phase" = none) :
    ∃ e, retrieve_candidates store vector limit = .error e := by
  unfold retrieve_candidates
  exact reconstruct_hits_err hmem htr (reconstruct_unit_fails hmiss)

/-- C9 witness: the amended theorem applied to the concrete two-point
store whose second stored payload lacks `"phase"`. -/
theorem c9_witness : ∃ e, retrieve_candidates badStore [] 5 = .error e := by
  have hs : search badStore [] 5
      = [{ payload := badPayload, score := 1 }, { payload := unitEx.to_dict, score := 1 }] := by
    with_unfolding_all rfl
  exact c9_amended_error_propagates badStore [] 5 { payload := badPayload, score := 1 }
    (by rw [hs]; exact List.mem_cons_self _ _) (by decide) rfl

end MemoryTheorems

section SerializationTheorems

open QdrantMemory

theorem exc_map_ok {ε α β : Type} (a : α) (f : α → β) :
    (Except.ok a : Except ε α).map f = .ok (f a) := rfl

theorem exc_pure {ε α : Type} (a : α) : (pure a : Except ε α) = Except.ok a := rfl

theorem asOptStr_rt (o : Option String) : asOptStr (optStrJ o) = .ok o := by
  cases o <;> rfl

theorem asOptNum_rt (o : Option ℚ) : asOptNum (optNumJ o) = .ok o := by
  cases o <;> rfl

theorem asStr_str (s : String) : asStr (.str s) = .ok s := rfl

theorem upropCore_str (u : UncertainProperty String) :
    upropCore asStr (u.to_dict .str) = .ok u := by
  obtain ⟨v, src, conf⟩ := u
  cases v <;> cases conf <;> rfl

theorem upropCore_float (u : UncertainProperty ℚ) :
    upropCore asFloat (u.to_dict .num) = .ok u := by
  obtain ⟨v, src, conf⟩ := u
  cases v <;> cases conf <;> rfl

theorem upropCore_int (u : UncertainProperty ℤ) :
    upropCore asInt (u.to_dict (fun n : ℤ => .num n)) = .ok u := by
  obtain ⟨v, src, conf⟩ := u
  cases v with
  | none => cases conf <;> rfl
  | some n =>
      cases conf <;>
        · have h := ratTrunc_intCast n
          simp [upropCore, UncertainProperty.to_dict, jget, jgetD, jlookup, jlookup.go,
            asInt, asStr, asConfidence, PyConfidence.toJ, exc_bind_ok, exc_pure, h]

theorem uprop_to_dict_truthy {T : Type} (ser : T → JVal) (u : UncertainProperty T) :
    jtruthy (u.to_dict ser) = true := by
  simp [UncertainProperty.to_dict, jtruthy]

theorem uprop_rt_str (p : Option (UncertainProperty String)) :
    uprop asStr (optPropJ .str p) = .ok p := by
  cases p with
  | none => rfl
  | some u =>
      simp [uprop, optPropJ, uprop_to_dict_truthy, upropCore_str, exc_map_ok]

theorem uprop_rt_float (p : Option (UncertainProperty ℚ)) :
    uprop asFloat (optPropJ .num p) = .ok p := by
  cases p with
  | none => rfl
  | some u =>
      simp [uprop, optPropJ, uprop_to_dict_truthy, upropCore_float, exc_map_ok]

theorem uprop_rt_int (p : Option (UncertainProperty ℤ)) :
    uprop asInt (optPropJ (fun n : ℤ => .num n) p) = .ok p := by
  cases p with
  | none => rfl
  | some u =>
      simp [uprop, optPropJ, uprop_to_dict_truthy, upropCore_int, exc_map_ok]

theorem uprop_list_rt_str (l : List (UncertainProperty String)) :
    uprop_list asStr (listPropJ .str l) = .ok l := by
  induction l with
  | nil => rfl
  | cons u t ih =>
      simp only [listPropJ, uprop_list] at ih ⊢
      simp only [List.map_cons, List.filter_cons, uprop_to_dict_truthy, if_true,
        List.mapM_cons, upropCore_str, exc_bind_ok, ih, exc_pure]

theorem reconstruct_cis_rt (l : List (String × UncertainProperty String)) :
    reconstruct_cis (.obj (l.map (fun p => (p.1, p.2.to_dict .str)))) = .ok l := by
  induction l with
  | nil => rfl
  | cons p t ih =>
      have hu : uprop asStr (p.2.to_dict .str) = .ok (some p.2) := by
        have := uprop_rt_str (some p.2)
        simpa [optPropJ] using this
      simp only [reconstruct_cis, List.map_cons, List.mapM_cons] at ih ⊢
      simp only [exc_pure] at ih
      simp only [hu, exc_bind_ok, exc_pure, ih]

theorem outcomes_to_dict_truthy (o : Outcomes) : jtruthy o.to_dict = true := by
  simp [Outcomes.to_dict, jtruthy]

theorem reconstruct_outcomes_rt (o : Outcomes) : reconstruct_outcomes o.to_dict = .ok o := by
  obtain ⟨c, i, d, e⟩ := o
  simp [reconstruct_outcomes, Outcomes.to_dict, jget, jgetD, jlookup, jlookup.go,
    uprop_rt_int, uprop_rt_str, exc_bind_ok, exc_pure]

theorem reconstruct_situation_rt (s : EarthquakeSituation) :
    reconstruct_situation s.to_dict = .ok (stripMeta s) := by
  obtain ⟨ei, sp, he, be, di, at_, out, rid, cat⟩ := s
  obtain ⟨eid, etype, mag, intens, ph, ts, tsh⟩ := ei
  obtain ⟨rt, tr, sh, ld⟩ := sp
  obtain ⟨pd, vg, tdc⟩ := he
  obtain ⟨dbt, cq, cis⟩ := be
  obtain ⟨bcs, ad, uf, vh⟩ := di
  obtain ⟨ro, es, md, lc⟩ := at_
  simp [reconstruct_situation, EarthquakeSituation.to_dict, EventIdentity.to_dict,
    SpatialContext.to_dict, HumanExposure.to_dict, BuiltEnvironment.to_dict,
    DamageIndicators.to_dict, ActionsTaken.to_dict, jget, jgetD, jlookup, jlookup.go,
    asOptStr_rt, asOptNum_rt, asStr_str, uprop_rt_str, uprop_rt_float,
    uprop_list_rt_str, reconstruct_cis_rt, outcomes_to_dict_truthy,
    reconstruct_outcomes_rt, exc_bind_ok, exc_pure, stripMeta]

theorem reconstruct_situation_extra (s : EarthquakeSituation) (v : JVal) :
    reconstruct_situation (withExtra s.to_dict "unrecognized_field" v)
      = .ok (stripMeta s) := by
  obtain ⟨ei, sp, he, be, di, at_, out, rid, cat⟩ := s
  obtain ⟨eid, etype, mag, intens, ph, ts, tsh⟩ := ei
  obtain ⟨rt, tr, sh, ld⟩ := sp
  obtain ⟨pd, vg, tdc⟩ := he
  obtain ⟨dbt, cq, cis⟩ := be
  obtain ⟨bcs, ad, uf, vh⟩ := di
  obtain ⟨ro, es, md, lc⟩ := at_
  simp [reconstruct_situation, EarthquakeSituation.to_dict, EventIdentity.to_dict,
    SpatialContext.to_dict, HumanExposure.to_dict, BuiltEnvironment.to_dict,
    DamageIndicators.to_dict, ActionsTaken.to_dict, withExtra, jget, jgetD,
    jlookup, jlookup.go, asOptStr_rt, asOptNum_rt, asStr_str, uprop_rt_str,
    uprop_rt_float, uprop_list_rt_str, reconstruct_cis_rt, outcomes_to_dict_truthy,
    reconstruct_outcomes_rt, exc_bind_ok, exc_pure, stripMeta]

/-- C7 counterexample: `EarthquakeSituation.from_dict` is a stub whose
body is `pass`, so it returns `None` even on the serialization of the
default situation — it recovers nothing, contradicting the claim that it
recovers `s` up to dropped metadata. -/
theorem c7_counterexample :
    EarthquakeSituation.from_dict (EarthquakeSituation.to_dict {}) = none := rfl

/-- C7 amended: the round-trip holds through the store's reconstruction:
for every situation `s`, `_reconstruct_situation (s.to_dict())` succeeds
and returns `s` with its record metadata (`record_id`, `created_at`,
`timestamp`) dropped to defaults; deserializing the empty payload yields
the all-default situation (missing fields default), and an unrecognized
field is ignored.  `EarthquakeSituation.from_dict` itself is a stub that
returns `None` (see the counterexample). -/
theorem c7_amended_roundtrip (s : EarthquakeSituation) (v : JVal) :
    QdrantMemory.reconstruct_situation s.to_dict = .ok (stripMeta s)
    ∧ QdrantMemory.reconstruct_situation (.obj []) = .ok ({} : EarthquakeSituation)
    ∧ QdrantMemory.reconstruct_situation (withExtra s.to_dict "unrecognized_field" v)
        = .ok (stripMeta s) :=
  ⟨reconstruct_situation_rt s, rfl, reconstruct_situation_extra s v⟩

end SerializationTheorems

end Madris
